import Mathlib

/-!
Verification development for the Meraki day-0 network setup tool
(`setup.py`, `utils.py`, `meraki_functions.py`).

The configuration documents the tool consumes are JSON-shaped Python
values; we embed them as the inductive type `Value`, with Python dicts
as ordered association lists (insertion order preserved, first match on
lookup, update-in-place-or-append on assignment, exactly as CPython
dicts behave for duplicate-free field lists produced by `json.load`).

The Meraki dashboard SDK is out of scope of the repository; it is
modelled as a `Backend` record of response functions.  Every embedded
`meraki_functions` wrapper records the dashboard method it invokes as a
`CallEvent`, so "no backend call is issued" claims are statements about
the event trace.  Uncaught Python exceptions (`KeyError`, `TypeError`,
`IndexError` raised outside the wrappers' `try` blocks) are modelled by
the `PyRes.crash` constructor and propagate through callers, mirroring
how an exception would unwind the worker thread.

Log-buffer threading (`log_buffer`) and `time.sleep`, `rich` progress
objects are presentation-only and are dropped from the embedding; the
key lookups the source performs inside log f-strings (such as
`new_vlan['id']`) are kept, because a missing key there raises.
-/

/-- JSON-shaped Python value.  `obj` keeps fields in insertion order. -/
inductive Value where
  | null
  | bool (b : Bool)
  | int (n : Int)
  | str (s : String)
  | arr (elems : List Value)
  | obj (fields : List (String × Value))

/-- First-match lookup in an ordered field list (CPython dict lookup). -/
def lookupField : List (String × Value) → String → Option Value
  | [], _ => none
  | (k, v) :: rest, key => if k = key then some v else lookupField rest key

/-- `key in d` for a field list. -/
def hasField (fields : List (String × Value)) (key : String) : Bool :=
  (lookupField fields key).isSome

/-- `d[key] = v`: overwrite the first occurrence in place, else append
(CPython dict assignment keeps the original insertion position). -/
def setField : List (String × Value) → String → Value → List (String × Value)
  | [], key, v => [(key, v)]
  | (k, w) :: rest, key, v =>
    if k = key then (k, v) :: rest else (k, w) :: setField rest key v

/-- `del d[key]`: remove the first occurrence. -/
def delField : List (String × Value) → String → List (String × Value)
  | [], _ => []
  | (k, w) :: rest, key =>
    if k = key then rest else (k, w) :: delField rest key

/-- Python truthiness of a JSON-shaped value (`if not config:` checks). -/
def Value.truthy : Value → Bool
  | .null => false
  | .bool b => b
  | .int n => n != 0
  | .str s => s ≠ ""
  | .arr xs => !xs.isEmpty
  | .obj fs => !fs.isEmpty

/-- Field access on an object, `none` when the value is not a dict or
the key is absent. -/
def Value.get? : Value → String → Option Value
  | .obj fs, key => lookupField fs key
  | _, _ => none

/-- Python `v == "lit"` where the right-hand side is a string literal:
true only for an equal string. -/
def isStrVal (v : Value) (lit : String) : Bool :=
  match v with
  | .str s => s = lit
  | _ => false

/-- Whether `pat` starts the character list `l`. -/
def startsWithChars (l pat : List Char) : Bool :=
  match l, pat with
  | _, [] => true
  | [], _ :: _ => false
  | c :: cs, p :: ps => c == p && startsWithChars cs ps

/-- Whether `pat` occurs somewhere in `l`. -/
def containsSubstrChars (l pat : List Char) : Bool :=
  match l with
  | [] => pat.isEmpty
  | c :: rest => startsWithChars (c :: rest) pat || containsSubstrChars rest pat

/-- Substring test (`'taken' in message`). -/
def containsSubstr (s pat : String) : Bool :=
  containsSubstrChars s.data pat.data

/-- Result of running a piece of Python code: a value, or an uncaught
exception unwinding the worker thread. -/
inductive PyRes (α : Type) where
  | ok (a : α)
  | crash (msg : String)

/-- Python `key in container`: key lookup on dicts, element equality on
lists, substring on strings, `TypeError` otherwise. -/
def pyInOp (key : String) (v : Value) : PyRes Bool :=
  match v with
  | .obj fs => .ok (hasField fs key)
  | .arr xs => .ok (xs.any (fun e => isStrVal e key))
  | .str s => .ok (containsSubstr s key)
  | _ => .crash "TypeError: argument of type is not iterable"

/-- Python `container[key]` with a string key: `KeyError` on a dict
missing the key, `TypeError` on non-dicts. -/
def getItem (v : Value) (key : String) : PyRes Value :=
  match v with
  | .obj fs =>
    match lookupField fs key with
    | some w => .ok w
    | none => .crash "KeyError"
  | _ => .crash "TypeError: subscript"

/-- Python `d.get(key, default)`: `AttributeError` on non-dicts. -/
def pyDictGet (v : Value) (key : String) (dflt : Value) : PyRes Value :=
  match v with
  | .obj fs =>
    match lookupField fs key with
    | some w => .ok w
    | none => .ok dflt
  | _ => .crash "AttributeError: get"

/-- One dashboard-SDK method invocation (the observable backend call):
the dashboard method name and its arguments. -/
structure CallEvent where
  op : String
  args : List Value

/-- Raw outcome of one dashboard-SDK method: success payload, a Meraki
`APIError` (status, `e.message['errors']`, `str(e)`), or a transport /
client-level exception. -/
inductive SdkRes (α : Type) where
  | ok (response : α)
  | apiError (status : String) (errors : List String) (text : String)
  | sdkError (text : String)

/-- The `(error_code, response)` pair every `meraki_functions` wrapper
returns: `error_code` is `None` exactly on `success`. -/
inductive ApiRetT (α : Type) where
  | success (response : α)
  | failure (code : String) (msg : String)

/-- Generic wrapper conversion: `except APIError` → `(e.status, str(e))`,
`except Exception` → `("500", str(e))`. -/
def sdkToRet : SdkRes α → ApiRetT α
  | .ok r => .success r
  | .apiError s _ t => .failure s t
  | .sdkError t => .failure "500" t

/-- Typed record for one firmware version in the
`getNetworkFirmwareUpgrades` response (`shortName`, `id`). -/
structure FirmwareVersion where
  shortName : String
  id : Value

/-- Per-product block of the `getNetworkFirmwareUpgrades` response. -/
structure ProductFirmware where
  currentVersion : FirmwareVersion
  availableVersions : List FirmwareVersion

/-- Shape of the `getNetworkFirmwareUpgrades` response destructured by
`firmware_upgrade`. -/
structure FirmwareInfo where
  products : List (String × ProductFirmware)

/-- One entry of the `getNetworkGroupPolicies` response. -/
structure GroupPolicy where
  name : String
  groupPolicyId : Value

/-- Shape of the `getNetworkApplianceContentFilteringCategories`
response. -/
structure ContentCategory where
  name : String
  id : Value

/-- The dashboard SDK, abstracted as one response function per method
the repository invokes.  Responses are pure functions of the call
arguments (the claims under study do not depend on backend state). -/
structure Backend where
  createOrganizationNetwork : Value → SdkRes Value
  updateNetwork : String → Value → SdkRes Value
  claimNetworkDevices : String → Value → SdkRes Value
  getNetworkFirmwareUpgrades : String → SdkRes FirmwareInfo
  updateNetworkFirmwareUpgrades : String → Value → SdkRes Value
  updateNetworkApplianceVpnSiteToSiteVpn : String → Value → SdkRes Value
  getNetworkApplianceVpnSiteToSiteVpn : String → SdkRes Value
  updateNetworkSyslogServers : String → Value → SdkRes Value
  updateNetworkSnmp : String → Value → SdkRes Value
  updateNetworkApplianceSecurityMalware : String → Value → SdkRes Value
  getNetworkApplianceContentFilteringCategories :
    String → SdkRes (List ContentCategory)
  updateNetworkApplianceContentFiltering : String → Value → SdkRes Value
  getNetworkGroupPolicies : String → SdkRes (List GroupPolicy)
  updateNetworkApplianceVlansSettings : String → SdkRes Value
  createNetworkApplianceVlan : String → Value → SdkRes Value
  updateNetworkApplianceVlan : String → Value → Value → SdkRes Value
  getNetworkApplianceVlans : String → SdkRes Value
  updateNetworkAppliancePort : String → Value → SdkRes Value
  getNetworkAppliancePorts : String → SdkRes Value
  updateDevice : Value → Value → SdkRes Value
  updateDeviceApplianceUplinksSettings : Value → Value → SdkRes Value
  getNetworkDevices : String → SdkRes Value
  getNetworkApplianceTrafficShapingUplinkBandwidth : String → SdkRes Value
  updateNetworkApplianceTrafficShapingUplinkBandwidth :
    String → Value → SdkRes Value

/-- Run context: the fragment files of the `configs/` directory (file
name to parsed JSON contents), the dashboard, and the run-global
network name→ID cache built once by `network_name_to_id`. -/
structure Env where
  fs : List (String × Value)
  backend : Backend
  netNameToId : List (String × String)

/-- Lookup in a string→string table (the name→ID caches). -/
def lookupStr : List (String × String) → String → Option String
  | [], _ => none
  | (k, v) :: rest, key => if k = key then some v else lookupStr rest key

namespace Meraki

/-- `meraki_functions.update_network`: `updateNetwork(network_id,
**network_config)`; unpacking a non-dict raises inside the `try` and is
caught as an SDK error before any dashboard call. -/
def update_network (b : Backend) (network_id : String) (network_config : Value) :
    PyRes (ApiRetT Value) × List CallEvent :=
  match network_config with
  | .obj _ =>
    (.ok (sdkToRet (b.updateNetwork network_id network_config)),
     [⟨"updateNetwork", [.str network_id, network_config]⟩])
  | _ => (.ok (.failure "500" "TypeError: argument unpacking"), [])

/-- `meraki_functions.create_network`: on an `APIError` whose first
error message contains `'taken'`, the cached ID for
`network_config['name']` is looked up and the call is converted into
`update_network` (the upsert); a missing cache entry raises `KeyError`. -/
def create_network (b : Backend) (network_config : Value)
    (net_name_to_id : List (String × String)) :
    PyRes (ApiRetT Value) × List CallEvent :=
  match network_config with
  | .obj fields =>
    let ev : CallEvent := ⟨"createOrganizationNetwork", [network_config]⟩
    match b.createOrganizationNetwork network_config with
    | .ok r => (.ok (.success r), [ev])
    | .sdkError t => (.ok (.failure "500" t), [ev])
    | .apiError s errors t =>
      match errors with
      | [] => (.crash "IndexError: list index out of range", [ev])
      | e0 :: _ =>
        if containsSubstr e0 "taken" then
          match lookupField fields "name" with
          | none => (.crash "KeyError: name", [ev])
          | some (.str nm) =>
            match lookupStr net_name_to_id nm with
            | some network_id =>
              let r := update_network b network_id network_config
              (r.1, ev :: r.2)
            | none => (.crash "KeyError: name missing from mapping", [ev])
          | some _ => (.crash "KeyError: name missing from mapping", [ev])
        else (.ok (.failure s t), [ev])
  | _ => (.ok (.failure "500" "TypeError: argument unpacking"), [])

/-- `meraki_functions.claim_devices`: serials are passed positionally,
so any value reaches the dashboard call. -/
def claim_devices (b : Backend) (network_id : String) (serials : Value) :
    PyRes (ApiRetT Value) × List CallEvent :=
  (.ok (sdkToRet (b.claimNetworkDevices network_id serials)),
   [⟨"claimNetworkDevices", [.str network_id, serials]⟩])

/-- `meraki_functions.get_network_firmware_upgrades`. -/
def get_network_firmware_upgrades (b : Backend) (network_id : String) :
    PyRes (ApiRetT FirmwareInfo) × List CallEvent :=
  (.ok (sdkToRet (b.getNetworkFirmwareUpgrades network_id)),
   [⟨"getNetworkFirmwareUpgrades", [.str network_id]⟩])

/-- `meraki_functions.trigger_network_firmware_upgrades`: an `APIError`
whose first message contains `'already on this version'` is converted
into a non-error success with an informational string. -/
def trigger_network_firmware_upgrades (b : Backend) (network_id : String)
    (firmware_upgrade_config : Value) : PyRes (ApiRetT Value) × List CallEvent :=
  match firmware_upgrade_config with
  | .obj _ =>
    let ev : CallEvent := ⟨"updateNetworkFirmwareUpgrades", [.str network_id, firmware_upgrade_config]⟩
    match b.updateNetworkFirmwareUpgrades network_id firmware_upgrade_config with
    | .ok r => (.ok (.success r), [ev])
    | .sdkError t => (.ok (.failure "500" t), [ev])
    | .apiError s errors t =>
      match errors with
      | [] => (.crash "IndexError: list index out of range", [ev])
      | e0 :: _ =>
        if containsSubstr e0 "already on this version" then
          (.ok (.success (.str "Firmware is up to date with specified version already. Skipping.")), [ev])
        else (.ok (.failure s t), [ev])
  | _ => (.ok (.failure "500" "TypeError: argument unpacking"), [])

/-- `meraki_functions.update_vlan`. -/
def update_vlan (b : Backend) (network_id : String) (vlan_id : Value)
    (vlan_config : Value) : PyRes (ApiRetT Value) × List CallEvent :=
  match vlan_config with
  | .obj _ =>
    (.ok (sdkToRet (b.updateNetworkApplianceVlan network_id vlan_id vlan_config)),
     [⟨"updateNetworkApplianceVlan", [.str network_id, vlan_id, vlan_config]⟩])
  | _ => (.ok (.failure "500" "TypeError: argument unpacking"), [])

/-- Shared `except APIError` handler of `create_vlan`: on `'taken'` or
`'bound'`, `vlan_config['id']` is popped and the call becomes
`update_vlan`. -/
def createVlanErrHandler (b : Backend) (network_id : String) (vlan_config : Value)
    (s : String) (errors : List String) (t : String) (evs : List CallEvent) :
    PyRes (ApiRetT Value) × List CallEvent :=
  match errors with
  | [] => (.crash "IndexError: list index out of range", evs)
  | e0 :: _ =>
    if containsSubstr e0 "taken" || containsSubstr e0 "bound" then
      match vlan_config with
      | .obj fields =>
        match lookupField fields "id" with
        | none => (.crash "KeyError: id", evs)
        | some vlan_id =>
          let r := update_vlan b network_id vlan_id (.obj (delField fields "id"))
          (r.1, evs ++ r.2)
      | _ => (.crash "TypeError: subscript", evs)
    else (.ok (.failure s t), evs)

/-- `meraki_functions.create_vlan`: first enables VLANs on the network,
then creates the VLAN, upgrading `'taken'`/`'bound'` errors into an
update with the `id` field removed. -/
def create_vlan (b : Backend) (network_id : String) (vlan_config : Value) :
    PyRes (ApiRetT Value) × List CallEvent :=
  let ev1 : CallEvent := ⟨"updateNetworkApplianceVlansSettings", [.str network_id]⟩
  match b.updateNetworkApplianceVlansSettings network_id with
  | .sdkError t => (.ok (.failure "500" t), [ev1])
  | .apiError s errors t => createVlanErrHandler b network_id vlan_config s errors t [ev1]
  | .ok _ =>
    match vlan_config with
    | .obj _ =>
      let ev2 : CallEvent := ⟨"createNetworkApplianceVlan", [.str network_id, vlan_config]⟩
      match b.createNetworkApplianceVlan network_id vlan_config with
      | .ok r => (.ok (.success r), [ev1, ev2])
      | .sdkError t => (.ok (.failure "500" t), [ev1, ev2])
      | .apiError s errors t =>
        createVlanErrHandler b network_id vlan_config s errors t [ev1, ev2]
    | _ => (.ok (.failure "500" "TypeError: argument unpacking"), [ev1])

/-- `meraki_functions.get_network_group_policies`. -/
def get_network_group_policies (b : Backend) (network_id : String) :
    PyRes (ApiRetT (List GroupPolicy)) × List CallEvent :=
  (.ok (sdkToRet (b.getNetworkGroupPolicies network_id)),
   [⟨"getNetworkGroupPolicies", [.str network_id]⟩])

/-- `meraki_functions.get_content_filtering_categories` (the modelled
response is the `categories` list the caller destructures). -/
def get_content_filtering_categories (b : Backend) (network_id : String) :
    PyRes (ApiRetT (List ContentCategory)) × List CallEvent :=
  (.ok (sdkToRet (b.getNetworkApplianceContentFilteringCategories network_id)),
   [⟨"getNetworkApplianceContentFilteringCategories", [.str network_id]⟩])

/-- Generic embedding of the simple `**config`-spreading wrappers. -/
def spreadCall (op : String) (pre : List Value) (payload : Value)
    (f : Value → SdkRes Value) : PyRes (ApiRetT Value) × List CallEvent :=
  match payload with
  | .obj _ => (.ok (sdkToRet (f payload)), [⟨op, pre ++ [payload]⟩])
  | _ => (.ok (.failure "500" "TypeError: argument unpacking"), [])

/-- Generic embedding of the argument-less `get` wrappers. -/
def getCall (op : String) (network_id : String) (r : SdkRes Value) :
    PyRes (ApiRetT Value) × List CallEvent :=
  (.ok (sdkToRet r), [⟨op, [.str network_id]⟩])

/-- `meraki_functions.update_site_to_site_vpn`. -/
def update_site_to_site_vpn (b : Backend) (network_id : String)
    (site2site_configs : Value) : PyRes (ApiRetT Value) × List CallEvent :=
  spreadCall "updateNetworkApplianceVpnSiteToSiteVpn" [.str network_id]
    site2site_configs (b.updateNetworkApplianceVpnSiteToSiteVpn network_id)

/-- `meraki_functions.get_site_to_site_vpn`. -/
def get_site_to_site_vpn (b : Backend) (network_id : String) :
    PyRes (ApiRetT Value) × List CallEvent :=
  getCall "getNetworkApplianceVpnSiteToSiteVpn" network_id
    (b.getNetworkApplianceVpnSiteToSiteVpn network_id)

/-- `meraki_functions.update_sys_log_servers`. -/
def update_sys_log_servers (b : Backend) (network_id : String)
    (syslog_config : Value) : PyRes (ApiRetT Value) × List CallEvent :=
  spreadCall "updateNetworkSyslogServers" [.str network_id] syslog_config
    (b.updateNetworkSyslogServers network_id)

/-- `meraki_functions.update_snmp`. -/
def update_snmp (b : Backend) (network_id : String) (snmp_config : Value) :
    PyRes (ApiRetT Value) × List CallEvent :=
  spreadCall "updateNetworkSnmp" [.str network_id] snmp_config
    (b.updateNetworkSnmp network_id)

/-- `meraki_functions.update_malware_settings`. -/
def update_malware_settings (b : Backend) (network_id : String)
    (amp_config : Value) : PyRes (ApiRetT Value) × List CallEvent :=
  spreadCall "updateNetworkApplianceSecurityMalware" [.str network_id] amp_config
    (b.updateNetworkApplianceSecurityMalware network_id)

/-- `meraki_functions.update_content_filtering_settings`. -/
def update_content_filtering_settings (b : Backend) (network_id : String)
    (content_filtering_config : Value) : PyRes (ApiRetT Value) × List CallEvent :=
  spreadCall "updateNetworkApplianceContentFiltering" [.str network_id]
    content_filtering_config (b.updateNetworkApplianceContentFiltering network_id)

/-- `meraki_functions.get_vlans`. -/
def get_vlans (b : Backend) (network_id : String) :
    PyRes (ApiRetT Value) × List CallEvent :=
  getCall "getNetworkApplianceVlans" network_id (b.getNetworkApplianceVlans network_id)

/-- `meraki_functions.update_network_appliance_port`. -/
def update_network_appliance_port (b : Backend) (network_id : String)
    (appliance_port_config : Value) : PyRes (ApiRetT Value) × List CallEvent :=
  spreadCall "updateNetworkAppliancePort" [.str network_id] appliance_port_config
    (b.updateNetworkAppliancePort network_id)

/-- `meraki_functions.get_network_appliance_ports`. -/
def get_network_appliance_ports (b : Backend) (network_id : String) :
    PyRes (ApiRetT Value) × List CallEvent :=
  getCall "getNetworkAppliancePorts" network_id (b.getNetworkAppliancePorts network_id)

/-- `meraki_functions.update_device` (keyed by device serial). -/
def update_device (b : Backend) (serial : Value) (device_config : Value) :
    PyRes (ApiRetT Value) × List CallEvent :=
  spreadCall "updateDevice" [serial] device_config (b.updateDevice serial)

/-- `meraki_functions.update_mx_uplinks`. -/
def update_mx_uplinks (b : Backend) (serial : Value) (uplink_config : Value) :
    PyRes (ApiRetT Value) × List CallEvent :=
  spreadCall "updateDeviceApplianceUplinksSettings" [serial] uplink_config
    (b.updateDeviceApplianceUplinksSettings serial)

/-- `meraki_functions.get_network_devices`. -/
def get_network_devices (b : Backend) (network_id : String) :
    PyRes (ApiRetT Value) × List CallEvent :=
  getCall "getNetworkDevices" network_id (b.getNetworkDevices network_id)

/-- `meraki_functions.get_uplink_bandwidth`. -/
def get_uplink_bandwidth (b : Backend) (network_id : String) :
    PyRes (ApiRetT Value) × List CallEvent :=
  getCall "getNetworkApplianceTrafficShapingUplinkBandwidth" network_id
    (b.getNetworkApplianceTrafficShapingUplinkBandwidth network_id)

/-- `meraki_functions.update_traffic_shaping_uplink_bandwidth_settings`. -/
def update_traffic_shaping_uplink_bandwidth_settings (b : Backend)
    (network_id : String) (traffic_shaping_uplink_bandwidth_config : Value) :
    PyRes (ApiRetT Value) × List CallEvent :=
  spreadCall "updateNetworkApplianceTrafficShapingUplinkBandwidth" [.str network_id]
    traffic_shaping_uplink_bandwidth_config
    (b.updateNetworkApplianceTrafficShapingUplinkBandwidth network_id)

end Meraki

/-- Fields of an object; only applied where a preceding successful
`getItem`/`pyInOp` already guarantees the value is a dict. -/
def objFields : Value → List (String × Value)
  | .obj fs => fs
  | _ => []

/-- Python `for x in v`: list elements, dict keys, string characters;
`TypeError` otherwise. -/
def pyIter (v : Value) : PyRes (List Value) :=
  match v with
  | .arr xs => .ok xs
  | .obj fs => .ok (fs.map (fun p => Value.str p.1))
  | .str s => .ok (s.toList.map fun c => Value.str (String.singleton c))
  | _ => .crash "TypeError: not iterable"

namespace Utils

/-- `utils.separate_custom_fields`: one pass over the dict, routing
`_`-prefixed keys into the custom-fields dict and everything else into
the remaining-fields dict, preserving the original order; values are
carried verbatim (no recursion into nested values). -/
def separate_custom_fields : List (String × Value) →
    (List (String × Value)) × (List (String × Value))
  | [] => ([], [])
  | (key, value) :: rest =>
    let r := separate_custom_fields rest
    if startsWithChars key.data ['_'] then ((key, value) :: r.1, r.2)
    else (r.1, (key, value) :: r.2)

/-- `utils.load_ref_config`: read the named fragment from the configs
directory, `None` when the file does not exist (`os.path.join` raising
on a non-string name). -/
def load_ref_config (env : Env) (filename : Value) : PyRes (Option Value) :=
  match filename with
  | .str f => .ok (lookupField env.fs f)
  | _ => .crash "TypeError: join"

/-- Outcome of the recurring block
`if "_ref" in config: config = load_ref_config(config["_ref"]);
if not config: <failure>`: no `_ref` present, a (truthy) loaded
fragment, or the not-found branch (which also fires when the fragment
loads to a falsy value, since the source tests `if not config`). -/
inductive RefStep where
  | noRef
  | loaded (v : Value)
  | notFound

/-- The `_ref` check-and-load block shared by every applier. -/
def refResolve (env : Env) (config : Value) : PyRes RefStep :=
  match pyInOp "_ref" config with
  | .crash m => .crash m
  | .ok false => .ok .noRef
  | .ok true =>
    match getItem config "_ref" with
    | .crash m => .crash m
    | .ok fn =>
      match load_ref_config env fn with
      | .crash m => .crash m
      | .ok none => .ok .notFound
      | .ok (some v) => if v.truthy then .ok (.loaded v) else .ok .notFound

/-- The config in effect after the `_ref` block: the loaded fragment if
one was read, otherwise the original value. -/
def resolvedConfig : RefStep → Value → Value
  | .loaded v, _ => v
  | _, config => config

/-- Shared wrap of a single update call into the applier's
`(status, output)` pair. -/
def simpleUpdateResult (r : PyRes (ApiRetT Value) × List CallEvent) :
    PyRes (String × Value) × List CallEvent :=
  match r.1 with
  | .crash m => (.crash m, r.2)
  | .ok (.failure _ msg) => (.ok ("Failure", .str msg), r.2)
  | .ok (.success resp) => (.ok ("Success", resp), r.2)

/-- `utils.claim_devices` (section applier): resolve `_ref`, read
`serials` (default `[]`), claim; the 120-second settling sleep on
success is presentation-timing and not modelled. -/
def claim_devices (env : Env) (net_id : String) (config0 : Value) :
    PyRes (String × Value) × List CallEvent :=
  match refResolve env config0 with
  | .crash m => (.crash m, [])
  | .ok .notFound => (.ok ("Failure", .str "Ref File not found... skipping."), [])
  | .ok step =>
    match pyDictGet (resolvedConfig step config0) "serials" (.arr []) with
    | .crash m => (.crash m, [])
    | .ok serials =>
      simpleUpdateResult (Meraki.claim_devices env.backend net_id serials)

/-- The firmware name→ID table: current version first, then the
available versions, for each product in response order; a repeated
short name keeps its first position but takes the latest ID (dict
assignment). -/
def buildFirmwareTable (products : List (String × ProductFirmware)) :
    List (String × Value) :=
  products.foldl (fun acc p =>
    let acc1 := setField acc p.2.currentVersion.shortName p.2.currentVersion.id
    p.2.availableVersions.foldl (fun a v => setField a v.shortName v.id) acc1) []

/-- Per-product outcome of the `_name_id` conversion loop. -/
inductive EntryRes where
  | keep
  | converted (pu : Value) (shortname : Value)
  | missing (shortname : Value)

/-- One iteration of the conversion loop of `firmware_upgrade`: if the
product requests `nextUpgrade.toVersion._name_id`, look the short name
up in the table and replace the key by the translated `id`, else leave
the product untouched; an absent short name aborts the loop (an
unhashable one raises: `shortname in firmware_name_to_id` hashes the
key with no truthiness short-circuit). -/
def convertEntry (table : List (String × Value)) (product_upgrade : Value) :
    PyRes EntryRes :=
  match pyInOp "nextUpgrade" product_upgrade with
  | .crash m => .crash m
  | .ok false => .ok .keep
  | .ok true =>
    match getItem product_upgrade "nextUpgrade" with
    | .crash m => .crash m
    | .ok nu =>
      match pyInOp "toVersion" nu with
      | .crash m => .crash m
      | .ok false => .ok .keep
      | .ok true =>
        match getItem nu "toVersion" with
        | .crash m => .crash m
        | .ok tv =>
          match pyInOp "_name_id" tv with
          | .crash m => .crash m
          | .ok false => .ok .keep
          | .ok true =>
            match getItem tv "_name_id" with
            | .crash m => .crash m
            | .ok shortname =>
              match shortname with
              | .str s =>
                match lookupField table s with
                | some idv =>
                  .ok (.converted
                    (.obj (setField (objFields product_upgrade) "nextUpgrade"
                      (.obj (setField (objFields nu) "toVersion"
                        (.obj (setField (delField (objFields tv) "_name_id") "id" idv))))))
                    (.str s))
                | none => .ok (.missing (.str s))
              | .arr _ => .crash "TypeError: unhashable"
              | .obj _ => .crash "TypeError: unhashable"
              | _ => .ok (.missing shortname)

/-- Result of the whole conversion loop: either every requested version
was found (transformed products plus, in order, the collected
short names) or the first absent request. -/
inductive ConvRes where
  | found (products : List (String × Value)) (shortnames : List Value)
  | missing (shortname : Value)

/-- The conversion loop of `firmware_upgrade` over `config['products']`
(mutation of the nested dicts is rendered functionally). -/
def convertProducts (table : List (String × Value)) :
    List (String × Value) → PyRes ConvRes
  | [] => .ok (.found [] [])
  | (pname, pu) :: rest =>
    match convertEntry table pu with
    | .crash m => .crash m
    | .ok (.missing sn) => .ok (.missing sn)
    | .ok .keep =>
      match convertProducts table rest with
      | .crash m => .crash m
      | .ok (.missing sn) => .ok (.missing sn)
      | .ok (.found ps sns) => .ok (.found ((pname, pu) :: ps) sns)
    | .ok (.converted pu2 sn) =>
      match convertProducts table rest with
      | .crash m => .crash m
      | .ok (.missing sn2) => .ok (.missing sn2)
      | .ok (.found ps sns) => .ok (.found ((pname, pu2) :: ps) (sn :: sns))

/-- Trailing part of `firmware_upgrade`: trigger the upgrade with the
(possibly converted) config and report the collected short names. -/
def firmwareFinish (env : Env) (net_id : String) (config2 : Value)
    (shortnames : List Value) (evs : List CallEvent) :
    PyRes (String × Value) × List CallEvent :=
  let r2 := Meraki.trigger_network_firmware_upgrades env.backend net_id config2
  match r2.1 with
  | .crash m => (.crash m, evs ++ r2.2)
  | .ok (.failure _ msg) => (.ok ("Failure", .str msg), evs ++ r2.2)
  | .ok (.success _) => (.ok ("Success", .arr shortnames), evs ++ r2.2)

/-- `utils.firmware_upgrade`: fetch available firmware, build the
name→ID table, translate every requested `_name_id`, and only then
trigger the upgrade; an unknown requested version name returns Failure
without triggering. -/
def firmware_upgrade (env : Env) (net_id : String) (config0 : Value) :
    PyRes (String × Value) × List CallEvent :=
  match refResolve env config0 with
  | .crash m => (.crash m, [])
  | .ok .notFound => (.ok ("Failure", .str "Ref File not found... skipping."), [])
  | .ok step =>
    let config := resolvedConfig step config0
    let r1 := Meraki.get_network_firmware_upgrades env.backend net_id
    match r1.1 with
    | .crash m => (.crash m, r1.2)
    | .ok (.failure _ msg) => (.ok ("Failure", .str msg), r1.2)
    | .ok (.success info) =>
      let firmware_name_to_id := buildFirmwareTable info.products
      match pyInOp "products" config with
      | .crash m => (.crash m, r1.2)
      | .ok false => firmwareFinish env net_id config [] r1.2
      | .ok true =>
        match getItem config "products" with
        | .crash m => (.crash m, r1.2)
        | .ok products =>
          match products with
          | .obj prodFields =>
            match convertProducts firmware_name_to_id prodFields with
            | .crash m => (.crash m, r1.2)
            | .ok (.missing _) =>
              (.ok ("Failure", .str "Unable to find version in available versions"), r1.2)
            | .ok (.found prods2 shortnames) =>
              firmwareFinish env net_id
                (.obj (setField (objFields config) "products" (.obj prods2)))
                shortnames r1.2
          | other =>
            -- `for product in products` with `products[product]` inside:
            -- an empty iterable runs zero iterations, anything else
            -- raises on the first subscript
            match pyIter other with
            | .crash m => (.crash m, r1.2)
            | .ok [] => firmwareFinish env net_id config [] r1.2
            | .ok (_ :: _) => (.crash "TypeError: subscript", r1.2)

/-- One hub of the `spoke` branch of `site_to_site_vpn_config`: a (truthy,
hashable) `hubId` found in the name→ID cache is replaced in place by the
cached ID; anything else leaves the hub unchanged (`valid_hubs`, the
list of translated hubs, is collected by the source but never used). -/
def translateHub (net_name_to_id : List (String × String)) (hub : Value) :
    PyRes Value :=
  match pyDictGet hub "hubId" .null with
  | .crash m => .crash m
  | .ok hubId =>
    match hubId with
    | .str s =>
      if s ≠ "" then
        match lookupStr net_name_to_id s with
        | some nid => .ok (.obj (setField (objFields hub) "hubId" (.str nid)))
        | none => .ok hub
      else .ok hub
    | .arr xs => if xs.isEmpty then .ok hub else .crash "TypeError: unhashable"
    | .obj fs => if fs.isEmpty then .ok hub else .crash "TypeError: unhashable"
    | _ => .ok hub

/-- The hub loop of `site_to_site_vpn_config`. -/
def mapHubs (net_name_to_id : List (String × String)) :
    List Value → PyRes (List Value)
  | [] => .ok []
  | h :: rest =>
    match translateHub net_name_to_id h with
    | .crash m => .crash m
    | .ok h2 =>
      match mapHubs net_name_to_id rest with
      | .crash m => .crash m
      | .ok r => .ok (h2 :: r)

/-- `utils.site_to_site_vpn_config`: resolve `_ref`, read `mode`
(default `hub`) and `hubs`; in `spoke` mode translate hub names in
place when they are cached (uncached hubs stay in the payload, and the
mode is only downgraded to `hub` when `hubs` is absent or falsy), then
update the site-to-site settings. -/
def site_to_site_vpn_config (env : Env) (net_id : String)
    (net_name_to_id : List (String × String)) (config0 : Value) :
    PyRes (String × Value) × List CallEvent :=
  match refResolve env config0 with
  | .crash m => (.crash m, [])
  | .ok .notFound => (.ok ("Failure", .str "Ref File not found... skipping."), [])
  | .ok step =>
    let config := resolvedConfig step config0
    match pyDictGet config "mode" (.str "hub") with
    | .crash m => (.crash m, [])
    | .ok mode =>
      match pyDictGet config "hubs" .null with
      | .crash m => (.crash m, [])
      | .ok hubs =>
        if isStrVal mode "spoke" then
          if hubs.truthy then
            match hubs with
            | .arr hubList =>
              match mapHubs net_name_to_id hubList with
              | .crash m => (.crash m, [])
              | .ok hubs2 =>
                simpleUpdateResult (Meraki.update_site_to_site_vpn env.backend
                  net_id (.obj (setField (objFields config) "hubs" (.arr hubs2))))
            | _ => (.crash "AttributeError: get", [])
          else
            simpleUpdateResult (Meraki.update_site_to_site_vpn env.backend
              net_id (.obj (setField (objFields config) "mode" (.str "hub"))))
        else
          simpleUpdateResult (Meraki.update_site_to_site_vpn env.backend net_id config)

/-- `utils.syslog_server_config`. -/
def syslog_server_config (env : Env) (net_id : String) (config0 : Value) :
    PyRes (String × Value) × List CallEvent :=
  match refResolve env config0 with
  | .crash m => (.crash m, [])
  | .ok .notFound => (.ok ("Failure", .str "Ref File not found... skipping."), [])
  | .ok step =>
    simpleUpdateResult (Meraki.update_sys_log_servers env.backend net_id
      (resolvedConfig step config0))

/-- `utils.snmp_config`: the `_ref` fragment, when present, is loaded
into the local `syslog_config` variable and then discarded — the
ORIGINAL `config` (still carrying the `_ref` key) is what is forwarded
to the SNMP update. -/
def snmp_config (env : Env) (net_id : String) (config : Value) :
    PyRes (String × Value) × List CallEvent :=
  match refResolve env config with
  | .crash m => (.crash m, [])
  | .ok .notFound => (.ok ("Failure", .str "Ref File not found... skipping."), [])
  | .ok _ =>
    simpleUpdateResult (Meraki.update_snmp env.backend net_id config)

/-- `utils.amp_config`. -/
def amp_config (env : Env) (net_id : String) (config0 : Value) :
    PyRes (String × Value) × List CallEvent :=
  match refResolve env config0 with
  | .crash m => (.crash m, [])
  | .ok .notFound => (.ok ("Failure", .str "Ref File not found... skipping."), [])
  | .ok step =>
    simpleUpdateResult (Meraki.update_malware_settings env.backend net_id
      (resolvedConfig step config0))

/-- The category translation of `content_filtering_config`: keep, in
order, the IDs of the names present in the fetched catalog; absent
names are silently dropped (an unhashable entry raises). -/
def translateCategories (categories_map : List (String × Value)) :
    List Value → PyRes (List Value)
  | [] => .ok []
  | Value.arr _ :: _ => .crash "TypeError: unhashable"
  | Value.obj _ :: _ => .crash "TypeError: unhashable"
  | n :: rest =>
    match translateCategories categories_map rest with
    | .crash m => .crash m
    | .ok r =>
      match n with
      | .str s =>
        match lookupField categories_map s with
        | some idv => .ok (idv :: r)
        | none => .ok r
      | _ => .ok r

/-- `utils.content_filtering_config`: split custom fields; when
`_name_blockedUrlCategories` is present, fetch the category catalog,
translate the names, and merge the ID list into the remaining fields
before the update. -/
def content_filtering_config (env : Env) (net_id : String) (config0 : Value) :
    PyRes (String × Value) × List CallEvent :=
  match refResolve env config0 with
  | .crash m => (.crash m, [])
  | .ok .notFound => (.ok ("Failure", .str "Ref File not found... skipping."), [])
  | .ok step =>
    match resolvedConfig step config0 with
    | .obj cf =>
      let sep := separate_custom_fields cf
      match lookupField sep.1 "_name_blockedUrlCategories" with
      | none =>
        simpleUpdateResult (Meraki.update_content_filtering_settings env.backend
          net_id (.obj sep.2))
      | some namesVal =>
        let r1 := Meraki.get_content_filtering_categories env.backend net_id
        match r1.1 with
        | .crash m => (.crash m, r1.2)
        | .ok (.failure _ msg) => (.ok ("Failure", .str msg), r1.2)
        | .ok (.success cats) =>
          let categories_map := cats.foldl (fun acc c => setField acc c.name c.id) []
          match pyIter namesVal with
          | .crash m => (.crash m, r1.2)
          | .ok names =>
            match translateCategories categories_map names with
            | .crash m => (.crash m, r1.2)
            | .ok ids =>
              let r2 := Meraki.update_content_filtering_settings env.backend
                net_id (.obj (setField sep.2 "blockedUrlCategories" (.arr ids)))
              match r2.1 with
              | .crash m => (.crash m, r1.2 ++ r2.2)
              | .ok (.failure _ msg) => (.ok ("Failure", .str msg), r1.2 ++ r2.2)
              | .ok (.success resp) => (.ok ("Success", resp), r1.2 ++ r2.2)
    | _ => (.crash "AttributeError: items", [])

/-- Loop state of `vlans_config`: the running section status and the
`vpn_subnets` accumulator. -/
structure VlanSt where
  status : String
  vpnSubnets : List Value

/-- Group-policy name→ID translation of one VLAN item
(`_name_groupPolicyId` merged into the remaining fields when cached). -/
def groupPolicyTranslate (net_policy_groups : List (String × Value))
    (custom_fields remaining : List (String × Value)) :
    PyRes (List (String × Value)) :=
  match lookupField custom_fields "_name_groupPolicyId" with
  | none => .ok remaining
  | some (.arr _) => .crash "TypeError: unhashable"
  | some (.obj _) => .crash "TypeError: unhashable"
  | some (.str gp) =>
    match lookupField net_policy_groups gp with
    | some gid => .ok (setField remaining "groupPolicyId" gid)
    | none => .ok remaining
  | some _ => .ok remaining

/-- Control flow after one sub-step of a VLAN item: `next` is the
source's `continue` (skip the rest of this item), `go` falls through. -/
inductive ItemCtl where
  | next (st : VlanSt)
  | go (st : VlanSt)

/-- The `_vpn` sub-step of one VLAN item: a missing nested fragment
downgrades to Partial and `continue`s (skipping `_dhcp`); otherwise
`{localSubnet, useVpn}` is queued for the batched VPN-subnet update. -/
def vlanVpnStep (env : Env) (custom_fields : List (String × Value))
    (new_vlan : Value) (st : VlanSt) : PyRes ItemCtl :=
  match lookupField custom_fields "_vpn" with
  | none => .ok (.go st)
  | some vpn0 =>
    match refResolve env vpn0 with
    | .crash m => .crash m
    | .ok .notFound => .ok (.next { st with status := "Partial" })
    | .ok step =>
      match pyDictGet (resolvedConfig step vpn0) "useVpn" (.bool false) with
      | .crash m => .crash m
      | .ok useVpn =>
        match new_vlan.get? "subnet" with
        | none => .crash "KeyError: subnet"
        | some subnet =>
          .ok (.go { st with vpnSubnets := st.vpnSubnets ++
            [Value.obj [("localSubnet", subnet), ("useVpn", useVpn)]] })

/-- The `_dhcp` sub-step of one VLAN item: an immediate follow-up
update on the freshly created VLAN. -/
def vlanDhcpStep (env : Env) (net_id : String)
    (custom_fields : List (String × Value)) (vlanId : Value) (st : VlanSt) :
    PyRes VlanSt × List CallEvent :=
  match lookupField custom_fields "_dhcp" with
  | none => (.ok st, [])
  | some dhcp0 =>
    match refResolve env dhcp0 with
    | .crash m => (.crash m, [])
    | .ok .notFound => (.ok { st with status := "Partial" }, [])
    | .ok step =>
      let r := Meraki.update_vlan env.backend net_id vlanId (resolvedConfig step dhcp0)
      match r.1 with
      | .crash m => (.crash m, r.2)
      | .ok (.failure _ _) => (.ok { st with status := "Partial" }, r.2)
      | .ok (.success _) => (.ok st, r.2)

/-- One iteration of the VLAN loop: resolve `_ref`, split custom
fields, translate the group policy, create (or upsert) the VLAN, then
run the `_vpn` and `_dhcp` sub-steps; every per-item failure downgrades
the section to Partial and moves on to the next item. -/
def processVlanItem (env : Env) (net_id : String)
    (net_policy_groups : List (String × Value)) (st : VlanSt) (item0 : Value) :
    PyRes VlanSt × List CallEvent :=
  match refResolve env item0 with
  | .crash m => (.crash m, [])
  | .ok .notFound => (.ok { st with status := "Partial" }, [])
  | .ok step =>
    match resolvedConfig step item0 with
    | .obj vf =>
      let sep := separate_custom_fields vf
      match groupPolicyTranslate net_policy_groups sep.1 sep.2 with
      | .crash m => (.crash m, [])
      | .ok remaining_fields =>
        let r := Meraki.create_vlan env.backend net_id (.obj remaining_fields)
        match r.1 with
        | .crash m => (.crash m, r.2)
        | .ok (.failure _ _) => (.ok { st with status := "Partial" }, r.2)
        | .ok (.success new_vlan) =>
          -- the success log line interpolates `new_vlan['id']`
          match new_vlan.get? "id" with
          | none => (.crash "KeyError: id", r.2)
          | some vlanId =>
            match vlanVpnStep env sep.1 new_vlan st with
            | .crash m => (.crash m, r.2)
            | .ok (.next st2) => (.ok st2, r.2)
            | .ok (.go st2) =>
              let d := vlanDhcpStep env net_id sep.1 vlanId st2
              (d.1, r.2 ++ d.2)
    | _ => (.crash "AttributeError: items", [])

/-- The VLAN loop over the section's items. -/
def vlansLoop (env : Env) (net_id : String)
    (net_policy_groups : List (String × Value)) (st : VlanSt) :
    List Value → PyRes VlanSt × List CallEvent
  | [] => (.ok st, [])
  | item :: rest =>
    let r := processVlanItem env net_id net_policy_groups st item
    match r.1 with
    | .crash m => (.crash m, r.2)
    | .ok st2 =>
      let r2 := vlansLoop env net_id net_policy_groups st2 rest
      (r2.1, r.2 ++ r2.2)

/-- The batched VPN-subnet update performed once after all VLANs: if
any subnets were queued, read the site-to-site config and append them;
an error or `mode == 'none'` downgrades to Partial (already-created
VLANs are not reverted). -/
def vlansVpnBatch (env : Env) (net_id : String) (st : VlanSt) :
    PyRes String × List CallEvent :=
  if st.vpnSubnets.isEmpty then (.ok st.status, [])
  else
    let r := Meraki.get_site_to_site_vpn env.backend net_id
    match r.1 with
    | .crash m => (.crash m, r.2)
    | .ok (.failure _ _) => (.ok "Partial", r.2)
    | .ok (.success response) =>
      match response.get? "mode" with
      | none => (.crash "KeyError: mode", r.2)
      | some m =>
        if isStrVal m "none" then (.ok "Partial", r.2)
        else
          match response.get? "subnets" with
          | none => (.crash "KeyError: subnets", r.2)
          | some (.arr subList) =>
            let r2 := Meraki.update_site_to_site_vpn env.backend net_id
              (.obj (setField (objFields response) "subnets"
                (.arr (subList ++ st.vpnSubnets))))
            match r2.1 with
            | .crash m2 => (.crash m2, r.2 ++ r2.2)
            | .ok (.failure _ _) => (.ok "Partial", r.2 ++ r2.2)
            | .ok (.success _) => (.ok st.status, r.2 ++ r2.2)
          | some _ => (.crash "TypeError: concat", r.2)

/-- Shared ending of the list appliers: the final read-back call whose
response (or error text) becomes the section output regardless of the
preceding mutations' outcomes. -/
def finishWithGet (status : String) (evs : List CallEvent)
    (rg : PyRes (ApiRetT Value) × List CallEvent) :
    PyRes (String × Value) × List CallEvent :=
  match rg.1 with
  | .crash m => (.crash m, evs ++ rg.2)
  | .ok (.success v) => (.ok (status, v), evs ++ rg.2)
  | .ok (.failure _ m2) => (.ok (status, .str m2), evs ++ rg.2)

/-- `utils.vlans_config`: fetch group policies (a failure here fails
the whole section), run the VLAN loop, perform the batched VPN-subnet
update, and read back the configured VLANs. -/
def vlans_config (env : Env) (net_id : String) (config : Value) :
    PyRes (String × Value) × List CallEvent :=
  let rp := Meraki.get_network_group_policies env.backend net_id
  match rp.1 with
  | .crash m => (.crash m, rp.2)
  | .ok (.failure _ msg) =>
    (.ok ("Failure", .str ("Group Policies (Failure): " ++ msg ++ "\n")), rp.2)
  | .ok (.success net_policies) =>
    let net_policy_groups := net_policies.foldl
      (fun acc p => setField acc p.name p.groupPolicyId) []
    match pyIter config with
    | .crash m => (.crash m, rp.2)
    | .ok items =>
      let rl := vlansLoop env net_id net_policy_groups ⟨"Success", []⟩ items
      match rl.1 with
      | .crash m => (.crash m, rp.2 ++ rl.2)
      | .ok st =>
        let rb := vlansVpnBatch env net_id st
        match rb.1 with
        | .crash m => (.crash m, rp.2 ++ rl.2 ++ rb.2)
        | .ok status2 =>
          finishWithGet status2 (rp.2 ++ rl.2 ++ rb.2)
            (Meraki.get_vlans env.backend net_id)

/-- The per-port loop of `vlan_per_port_config`. -/
def perPortLoop (env : Env) (net_id : String) (status : String) :
    List Value → PyRes String × List CallEvent
  | [] => (.ok status, [])
  | item0 :: rest =>
    match refResolve env item0 with
    | .crash m => (.crash m, [])
    | .ok .notFound => perPortLoop env net_id "Partial" rest
    | .ok step =>
      let r := Meraki.update_network_appliance_port env.backend net_id
        (resolvedConfig step item0)
      match r.1 with
      | .crash m => (.crash m, r.2)
      | .ok (.failure _ _) =>
        let r2 := perPortLoop env net_id "Partial" rest
        (r2.1, r.2 ++ r2.2)
      | .ok (.success _) =>
        let r2 := perPortLoop env net_id status rest
        (r2.1, r.2 ++ r2.2)

/-- `utils.vlan_per_port_config`: per-item ref resolution and update
with per-item fault isolation, then the read-back of all ports. -/
def vlan_per_port_config (env : Env) (net_id : String) (config : Value) :
    PyRes (String × Value) × List CallEvent :=
  match pyIter config with
  | .crash m => (.crash m, [])
  | .ok items =>
    let rl := perPortLoop env net_id "Success" items
    match rl.1 with
    | .crash m => (.crash m, rl.2)
    | .ok status =>
      finishWithGet status rl.2 (Meraki.get_network_appliance_ports env.backend net_id)

/-- One iteration of the device loop: resolve `_ref`, require `serial`,
split custom fields (after popping the serial), update the device, then
apply an optional `_mx_uplinks` follow-up. -/
def deviceItem (env : Env) (status : String) (item0 : Value) :
    PyRes String × List CallEvent :=
  match refResolve env item0 with
  | .crash m => (.crash m, [])
  | .ok .notFound => (.ok "Partial", [])
  | .ok step =>
    let device_config := resolvedConfig step item0
    match pyInOp "serial" device_config with
    | .crash m => (.crash m, [])
    | .ok false => (.ok "Partial", [])
    | .ok true =>
      match getItem device_config "serial" with
      | .crash m => (.crash m, [])
      | .ok serial =>
        match device_config with
        | .obj df =>
          let sep := separate_custom_fields (delField df "serial")
          let r := Meraki.update_device env.backend serial (.obj sep.2)
          match r.1 with
          | .crash m => (.crash m, r.2)
          | .ok (.failure _ _) => (.ok "Partial", r.2)
          | .ok (.success _) =>
            match lookupField sep.1 "_mx_uplinks" with
            | none => (.ok status, r.2)
            | some up0 =>
              match refResolve env up0 with
              | .crash m => (.crash m, r.2)
              | .ok .notFound => (.ok "Partial", r.2)
              | .ok step2 =>
                let r2 := Meraki.update_mx_uplinks env.backend serial
                  (resolvedConfig step2 up0)
                match r2.1 with
                | .crash m => (.crash m, r.2 ++ r2.2)
                | .ok (.failure _ _) => (.ok "Partial", r.2 ++ r2.2)
                | .ok (.success _) => (.ok status, r.2 ++ r2.2)
        | _ => (.crash "TypeError: delete", [])

/-- The device loop over the section's items. -/
def devicesLoop (env : Env) (status : String) :
    List Value → PyRes String × List CallEvent
  | [] => (.ok status, [])
  | item :: rest =>
    let r := deviceItem env status item
    match r.1 with
    | .crash m => (.crash m, r.2)
    | .ok st2 =>
      let r2 := devicesLoop env st2 rest
      (r2.1, r.2 ++ r2.2)

/-- `utils.devices_config`: the device list applier with per-item fault
isolation and the network-devices read-back. -/
def devices_config (env : Env) (net_id : String) (config : Value) :
    PyRes (String × Value) × List CallEvent :=
  match pyIter config with
  | .crash m => (.crash m, [])
  | .ok items =>
    let rl := devicesLoop env "Success" items
    match rl.1 with
    | .crash m => (.crash m, rl.2)
    | .ok status =>
      finishWithGet status rl.2 (Meraki.get_network_devices env.backend net_id)

/-- Ending of `traffic_shaping_config`: the uplink-bandwidth read-back
wrapped as `{"uplink_bandwidth": response}`. -/
def trafficFinish (env : Env) (net_id : String) (status : String)
    (evs : List CallEvent) : PyRes (String × Value) × List CallEvent :=
  let rg := Meraki.get_uplink_bandwidth env.backend net_id
  match rg.1 with
  | .crash m => (.crash m, evs ++ rg.2)
  | .ok (.success v) =>
    (.ok (status, Value.obj [("uplink_bandwidth", v)]), evs ++ rg.2)
  | .ok (.failure _ m2) =>
    (.ok (status, Value.obj [("uplink_bandwidth", .str m2)]), evs ++ rg.2)

/-- `utils.traffic_shaping_config`: section-level `_ref` resolution
(Failure on a missing fragment), then the `_uplink_bandwidth` derived
sub-config; a missing nested fragment downgrades to Partial but — with
no `continue` in the source — still attempts the update with the `None`
load result (whose `**`-unpacking the SDK wrapper turns into a client
error), and the read-back always runs. -/
def traffic_shaping_config (env : Env) (net_id : String) (config0 : Value) :
    PyRes (String × Value) × List CallEvent :=
  match refResolve env config0 with
  | .crash m => (.crash m, [])
  | .ok .notFound => (.ok ("Failure", .str "Ref File not found... skipping."), [])
  | .ok step =>
    match resolvedConfig step config0 with
    | .obj cf =>
      let sep := separate_custom_fields cf
      match lookupField sep.1 "_uplink_bandwidth" with
      | none => trafficFinish env net_id "Success" []
      | some bw0 =>
        match refResolve env bw0 with
        | .crash m => (.crash m, [])
        | .ok .notFound =>
          let r := Meraki.update_traffic_shaping_uplink_bandwidth_settings
            env.backend net_id .null
          match r.1 with
          | .crash m => (.crash m, r.2)
          | .ok _ => trafficFinish env net_id "Partial" r.2
        | .ok step2 =>
          let r := Meraki.update_traffic_shaping_uplink_bandwidth_settings
            env.backend net_id (resolvedConfig step2 bw0)
          match r.1 with
          | .crash m => (.crash m, r.2)
          | .ok (.failure _ _) => trafficFinish env net_id "Partial" r.2
          | .ok (.success _) => trafficFinish env net_id "Success" r.2
    | _ => (.crash "AttributeError: items", [])

end Utils

namespace Setup

/-- One `{"status": ..., "output": ...}` entry of the completion
record's `settings` dict. -/
structure SettingResult where
  status : String
  output : Value

/-- The per-network completion record
`{"_name": ..., "settings": {...}}` built by `build_new_network`. -/
structure Completion where
  name : Value
  settings : List (String × SettingResult)

/-- Dict lookup in a settings record. -/
def lookupSetting : List (String × SettingResult) → String → Option SettingResult
  | [], _ => none
  | (k, v) :: rest, key => if k = key then some v else lookupSetting rest key

/-- Dict assignment in a settings record. -/
def setSetting : List (String × SettingResult) → String → SettingResult →
    List (String × SettingResult)
  | [], key, v => [(key, v)]
  | (k, w) :: rest, key, v =>
    if k = key then (k, v) :: rest else (k, w) :: setSetting rest key v

/-- The `elif` dispatch of the section loop in `build_new_network`:
`none` for a key the loop does not recognise (only logged). -/
def applySection (env : Env) (net_id : String) (setting : String)
    (payload : Value) : Option (PyRes (String × Value) × List CallEvent) :=
  if setting = "claim" then some (Utils.claim_devices env net_id payload)
  else if setting = "firmware" then some (Utils.firmware_upgrade env net_id payload)
  else if setting = "siteToSiteVPN" then
    some (Utils.site_to_site_vpn_config env net_id env.netNameToId payload)
  else if setting = "amp" then some (Utils.amp_config env net_id payload)
  else if setting = "content_filtering" then
    some (Utils.content_filtering_config env net_id payload)
  else if setting = "syslog" then some (Utils.syslog_server_config env net_id payload)
  else if setting = "snmp" then some (Utils.snmp_config env net_id payload)
  else if setting = "vlans" then some (Utils.vlans_config env net_id payload)
  else if setting = "vlan_per_port" then
    some (Utils.vlan_per_port_config env net_id payload)
  else if setting = "devices" then some (Utils.devices_config env net_id payload)
  else if setting = "traffic_shaping" then
    some (Utils.traffic_shaping_config env net_id payload)
  else none

/-- The backend calls one section contributes (none for unknown keys). -/
def sectionEvents (env : Env) (net_id : String) (kv : String × Value) :
    List CallEvent :=
  match applySection env net_id kv.1 kv.2 with
  | some r => r.2
  | none => []

/-- `for setting in remaining_settings: completion[...] = Skipped`:
every declared section is initialised to Skipped before any applier
runs. -/
def initSettings (settings : List (String × SettingResult)) :
    List String → List (String × SettingResult)
  | [] => settings
  | k :: rest => initSettings (setSetting settings k ⟨"Skipped", .null⟩) rest

/-- The section loop of `build_new_network`, iterating the remaining
keys in their document (insertion) order; the payload of each key is the
key's own entry (documents parsed from JSON are duplicate-free, so this
matches `network_config[setting]`). -/
def buildLoop (env : Env) (net_id : String)
    (settings : List (String × SettingResult)) :
    List (String × Value) →
    PyRes (List (String × SettingResult)) × List CallEvent
  | [] => (.ok settings, [])
  | (k, payload) :: rest =>
    match applySection env net_id k payload with
    | none => buildLoop env net_id settings rest
    | some r =>
      match r.1 with
      | .crash m => (.crash m, r.2)
      | .ok so =>
        let r2 := buildLoop env net_id (setSetting settings k ⟨so.1, so.2⟩) rest
        (r2.1, r.2 ++ r2.2)

/-- Truthiness of the optional copy-from ID (`if copy_from_id:`). -/
def copyTruthy : Option String → Bool
  | none => false
  | some s => s ≠ ""

/-- `setup.build_new_network`: validate metadata (name and productTypes
keys present), attach the copy-from source, create (or upsert) the
network, and on success initialise every remaining section to Skipped
and drive the appliers over the remaining keys in document order.
Creation failure short-circuits: the record is returned with only the
`creation` entry. -/
def build_new_network (env : Env) (copy_from_id : Option String)
    (network_config : Value) : PyRes Completion × List CallEvent :=
  let completion0 : Completion := ⟨.str "N/A", [("creation", ⟨"Failure", .null⟩)]⟩
  match pyDictGet network_config "metadata" .null with
  | .crash m => (.crash m, [])
  | .ok metadata =>
    if !metadata.truthy then (.ok completion0, [])
    else
      match pyInOp "name" metadata with
      | .crash m => (.crash m, [])
      | .ok false => (.ok completion0, [])
      | .ok true =>
        match pyInOp "productTypes" metadata with
        | .crash m => (.crash m, [])
        | .ok false => (.ok completion0, [])
        | .ok true =>
          let m2 : PyRes Value :=
            if copyTruthy copy_from_id then
              match metadata with
              | .obj mf =>
                .ok (.obj (setField mf "copyFromNetworkId"
                  (.str (copy_from_id.getD ""))))
              | _ => .crash "TypeError: assignment"
            else .ok metadata
          match m2 with
          | .crash m => (.crash m, [])
          | .ok metadata2 =>
            let rc := Meraki.create_network env.backend metadata2 env.netNameToId
            match rc.1 with
            | .crash m => (.crash m, rc.2)
            | .ok (.failure _ msg) =>
              match getItem metadata2 "name" with
              | .crash m => (.crash m, rc.2)
              | .ok nameV =>
                (.ok ⟨nameV, [("creation", ⟨"Failure", .str msg⟩)]⟩, rc.2)
            | .ok (.success response) =>
              match response.get? "id" with
              | none => (.crash "KeyError: id", rc.2)
              | some (.str net_id) =>
                match response.get? "name" with
                | none => (.crash "KeyError: name", rc.2)
                | some nameV =>
                  match network_config with
                  | .obj ncf =>
                    let entries := delField ncf "metadata"
                    let settings0 := initSettings
                      [("creation", ⟨"Success", response⟩)] (entries.map Prod.fst)
                    let rl := buildLoop env net_id settings0 entries
                    match rl.1 with
                    | .crash m => (.crash m, rc.2 ++ rl.2)
                    | .ok settings1 => (.ok ⟨nameV, settings1⟩, rc.2 ++ rl.2)
                  | _ => (.crash "TypeError: delete", rc.2)
              -- network IDs are string-valued in every dashboard
              -- response; a non-string here has no downstream meaning
              | some _ => (.crash "TypeError: network id", rc.2)

/-- Code-point comparison of characters (Python string ordering). -/
def charLt (a b : Char) : Bool := a.toNat < b.toNat

/-- Lexicographic code-point comparison of character lists. -/
def charsLe : List Char → List Char → Bool
  | [], _ => true
  | _ :: _, [] => false
  | a :: as, b :: bs =>
    if charLt a b then true else if charLt b a then false else charsLe as bs

/-- `a <= b` on strings as Python `sorted` compares them
(lexicographically by code point). -/
def strLe (a b : String) : Bool := charsLe a.data b.data

/-- Insertion into a sorted string list. -/
def insertSorted (x : String) : List String → List String
  | [] => [x]
  | y :: ys => if strLe x y then x :: y :: ys else y :: insertSorted x ys

/-- `sorted(...)` on a string list (insertion sort; Python's sort is
observationally the same on a duplicate-free list). -/
def sortStrings : List String → List String
  | [] => []
  | x :: xs => insertSorted x (sortStrings xs)

/-- The `unique_settings` set of `main`, rendered in its final
`sorted(...)` order: the sorted, duplicate-free union of the section
names appearing in any completion record. -/
def uniqueSettings (completions : List Completion) : List String :=
  sortStrings (completions.flatMap fun c => c.settings.map Prod.fst).dedup

/-- Colour chosen for a status cell of the summary table. -/
def statusStyle (value : String) : String :=
  if value = "Success" then "green"
  else if value = "Partial" then "yellow"
  else "red"

/-- The `rich` markup written into a present status cell. -/
def styledCell (value : String) : String :=
  "[" ++ statusStyle value ++ "]" ++ value ++ "[/" ++ statusStyle value ++ "]"

/-- One cell of a summary row: the styled recorded status when the
network declared the section, otherwise the empty string. -/
def reportCell (completion : Completion) (key : String) : String :=
  match lookupSetting completion.settings key with
  | some r => styledCell r.status
  | none => ""

/-- One row of the summary table: the network name followed by one cell
per column. -/
def reportRow (columns : List String) (completion : Completion) :
    Value × List String :=
  (completion.name, columns.map (reportCell completion))

end Setup

/-! ### Spec-side readings used to state the firmware claim -/

/-- The requested `nextUpgrade.toVersion._name_id` of one product
block, read structurally (none when any level is absent). -/
def requestedName (pu : Value) : Option Value :=
  (pu.get? "nextUpgrade").bind fun nu =>
    (nu.get? "toVersion").bind fun tv => tv.get? "_name_id"

/-- All requested version names of a `products` dict, in order. -/
def requestedNames (prods : List (String × Value)) : List Value :=
  prods.filterMap fun p => requestedName p.2

/-- The `nextUpgrade.toVersion.id` of one product block. -/
def toVersionIdOf (pu : Value) : Option Value :=
  (pu.get? "nextUpgrade").bind fun nu =>
    (nu.get? "toVersion").bind fun tv => tv.get? "id"

/-- Lookup of a requested version name in the firmware table: only a
string name can match the string-keyed dict. -/
def lookupVal (table : List (String × Value)) (v : Value) : Option Value :=
  match v with
  | .str s => lookupField table s
  | _ => none

/-! ### Concrete fixtures (a dashboard echoing payloads, one fragment
file, one cached network name) used by the closed theorems -/

/-- A dashboard whose mutating calls succeed echoing their payload and
whose reads return fixed well-formed responses. -/
def okB : Backend := {
  createOrganizationNetwork := fun _ => .ok (.obj [("id", .str "N_1"), ("name", .str "Branch1")]),
  updateNetwork := fun _ _ => .ok (.obj [("id", .str "N_1"), ("name", .str "Branch1")]),
  claimNetworkDevices := fun _ _ => .ok (.obj [("serials", .arr [])]),
  getNetworkFirmwareUpgrades := fun _ =>
    .ok ⟨[("appliance", ⟨⟨"MX 17", .str "17"⟩, [⟨"MX 18", .str "18"⟩]⟩)]⟩,
  updateNetworkFirmwareUpgrades := fun _ p => .ok p,
  updateNetworkApplianceVpnSiteToSiteVpn := fun _ p => .ok p,
  getNetworkApplianceVpnSiteToSiteVpn := fun _ =>
    .ok (.obj [("mode", .str "hub"), ("subnets", .arr [])]),
  updateNetworkSyslogServers := fun _ p => .ok p,
  updateNetworkSnmp := fun _ p => .ok p,
  updateNetworkApplianceSecurityMalware := fun _ p => .ok p,
  getNetworkApplianceContentFilteringCategories := fun _ => .ok [⟨"Adult", .str "C1"⟩],
  updateNetworkApplianceContentFiltering := fun _ p => .ok p,
  getNetworkGroupPolicies := fun _ => .ok [],
  updateNetworkApplianceVlansSettings := fun _ => .ok .null,
  createNetworkApplianceVlan := fun _ p => .ok p,
  updateNetworkApplianceVlan := fun _ _ p => .ok p,
  getNetworkApplianceVlans := fun _ => .ok (.arr []),
  updateNetworkAppliancePort := fun _ p => .ok p,
  getNetworkAppliancePorts := fun _ => .ok (.arr []),
  updateDevice := fun _ p => .ok p,
  updateDeviceApplianceUplinksSettings := fun _ p => .ok p,
  getNetworkDevices := fun _ => .ok (.arr []),
  getNetworkApplianceTrafficShapingUplinkBandwidth := fun _ => .ok (.arr []),
  updateNetworkApplianceTrafficShapingUplinkBandwidth := fun _ p => .ok p
}

/-- `okB` with network creation failing on a non-"taken" API error. -/
def failB : Backend :=
  { okB with createOrganizationNetwork :=
      fun _ => .apiError "400" ["Bad product types"] "400 Bad Request" }

/-- `okB` with network creation reporting the name as already taken. -/
def takenB : Backend :=
  { okB with createOrganizationNetwork :=
      fun _ => .apiError "400" ["Name already taken"] "400 Bad Request" }

/-- Run context over `okB` with one fragment file and one cached name. -/
def testEnv : Env :=
  ⟨[("frag.json", .obj [("v2cEnabled", .bool true)])], okB, [("HQ", "N_HQ")]⟩

/-- Run context over `failB`. -/
def failEnv : Env := ⟨[], failB, []⟩

/-- Run context over `takenB`, with the network name cached. -/
def takenEnv : Env := ⟨[], takenB, [("Branch1", "N_OLD")]⟩

/-- A document declaring `firmware` before `claim` (document order is
the reverse of the fixed precedence list for these two sections). -/
def buildCfg : Value := .obj [
  ("metadata", .obj [("name", .str "Branch1"), ("productTypes", .arr [.str "appliance"])]),
  ("firmware", .obj []),
  ("claim", .obj [("serials", .arr [.str "Q234"])])]

/-- A well-formed VLAN item. -/
def goodVlan (n : Int) : Value :=
  .obj [("id", .int n), ("name", .str "Data"), ("subnet", .str "10.0.0.0/24")]

/-- Completion fixture declaring `creation` and `vlans`. -/
def compA : Setup.Completion :=
  ⟨.str "A", [("creation", ⟨"Success", .null⟩), ("vlans", ⟨"Partial", .null⟩)]⟩

/-- Completion fixture declaring only `creation`. -/
def compB : Setup.Completion := ⟨.str "B", [("creation", ⟨"Failure", .null⟩)]⟩

/-- A document with metadata only (used for the upsert fixture). -/
def buildUpsertCfg : Value := .obj [
  ("metadata", .obj [("name", .str "Branch1"), ("productTypes", .arr [.str "appliance"])])]

/-- Number of occurrences of a key in a field list (0 or 1 for any
dict parsed from JSON). -/
def keyCount (fields : List (String × Value)) (key : String) : Nat :=
  (fields.filter fun p => p.1 = key).length

/-- The `toVersion` object of one product block. -/
def tvOf (pu : Value) : Option Value :=
  (pu.get? "nextUpgrade").bind fun nu => nu.get? "toVersion"

/-- Well-formedness of one product block: its `toVersion` dict, when
present, does not repeat the `_name_id` key (JSON dicts never repeat
keys). -/
def wfEntry (pu : Value) : Bool :=
  match tvOf pu with
  | some (.obj tvf) => keyCount tvf "_name_id" ≤ 1
  | _ => true

/-- Well-formedness of a whole `products` dict. -/
def wfProducts (prods : List (String × Value)) : Bool :=
  prods.all fun p => wfEntry p.2

/-! ### Helper lemmas -/

theorem charLt_iff {a b : Char} : Setup.charLt a b = true ↔ a.toNat < b.toNat := by
  simp [Setup.charLt]

theorem charsLe_total (as bs : List Char) :
    Setup.charsLe as bs = true ∨ Setup.charsLe bs as = true := by
  induction as generalizing bs with
  | nil => left; rfl
  | cons a as ih =>
    cases bs with
    | nil => right; rfl
    | cons b bs =>
      cases h1 : Setup.charLt a b with
      | true => left; simp [Setup.charsLe, h1]
      | false =>
        cases h2 : Setup.charLt b a with
        | true => right; simp [Setup.charsLe, h2]
        | false =>
          rcases ih bs with h | h
          · left; simp [Setup.charsLe, h1, h2, h]
          · right; simp [Setup.charsLe, h1, h2, h]

theorem charsLe_trans : ∀ {as bs cs : List Char}, Setup.charsLe as bs = true →
    Setup.charsLe bs cs = true → Setup.charsLe as cs = true := by
  intro as
  induction as with
  | nil => intro bs cs _ _; rfl
  | cons a as ih =>
    intro bs cs h1 h2
    cases bs with
    | nil => simp [Setup.charsLe] at h1
    | cons b bs =>
      cases cs with
      | nil => simp [Setup.charsLe] at h2
      | cons c cs =>
        simp only [Setup.charsLe] at h1 h2 ⊢
        rcases Nat.lt_trichotomy a.toNat b.toNat with hab | hab | hab
        · rcases Nat.lt_trichotomy b.toNat c.toNat with hbc | hbc | hbc
          · have e : Setup.charLt a c = true := by
              simp [Setup.charLt]; omega
            simp [e]
          · have e : Setup.charLt a c = true := by
              simp [Setup.charLt]; omega
            simp [e]
          · have e1 : Setup.charLt b c = false := by simp [Setup.charLt]; omega
            have e2 : Setup.charLt c b = true := by simp [Setup.charLt]; omega
            simp [e1, e2] at h2
        · rcases Nat.lt_trichotomy b.toNat c.toNat with hbc | hbc | hbc
          · have e : Setup.charLt a c = true := by
              simp [Setup.charLt]; omega
            simp [e]
          · have e1 : Setup.charLt a b = false := by simp [Setup.charLt]; omega
            have e2 : Setup.charLt b a = false := by simp [Setup.charLt]; omega
            have e3 : Setup.charLt b c = false := by simp [Setup.charLt]; omega
            have e4 : Setup.charLt c b = false := by simp [Setup.charLt]; omega
            have e5 : Setup.charLt a c = false := by simp [Setup.charLt]; omega
            have e6 : Setup.charLt c a = false := by simp [Setup.charLt]; omega
            simp only [e1, e2, Bool.false_eq_true, if_false] at h1
            simp only [e3, e4, Bool.false_eq_true, if_false] at h2
            simp only [e5, e6, Bool.false_eq_true, if_false]
            exact ih h1 h2
          · have e1 : Setup.charLt b c = false := by simp [Setup.charLt]; omega
            have e2 : Setup.charLt c b = true := by simp [Setup.charLt]; omega
            simp [e1, e2] at h2
        · have e1 : Setup.charLt a b = false := by simp [Setup.charLt]; omega
          have e2 : Setup.charLt b a = true := by simp [Setup.charLt]; omega
          simp [e1, e2] at h1

theorem strLe_total (a b : String) :
    Setup.strLe a b = true ∨ Setup.strLe b a = true :=
  charsLe_total a.data b.data

theorem strLe_trans {a b c : String} (h1 : Setup.strLe a b = true)
    (h2 : Setup.strLe b c = true) : Setup.strLe a c = true :=
  charsLe_trans h1 h2

theorem mem_insertSorted {x y : String} {l : List String} :
    y ∈ Setup.insertSorted x l ↔ y = x ∨ y ∈ l := by
  induction l with
  | nil => simp [Setup.insertSorted]
  | cons z zs ih =>
    simp only [Setup.insertSorted]
    cases h : Setup.strLe x z with
    | true => simp [List.mem_cons]
    | false =>
      simp only [Bool.false_eq_true, if_false, List.mem_cons, ih]
      tauto

theorem sorted_insertSorted (x : String) (l : List String)
    (h : l.Pairwise (fun a b => Setup.strLe a b = true)) :
    (Setup.insertSorted x l).Pairwise (fun a b => Setup.strLe a b = true) := by
  induction l with
  | nil => simp [Setup.insertSorted]
  | cons z zs ih =>
    rcases List.pairwise_cons.mp h with ⟨hz, hzs⟩
    simp only [Setup.insertSorted]
    cases hx : Setup.strLe x z with
    | true =>
      simp only [if_true]
      refine List.pairwise_cons.mpr ⟨?_, h⟩
      intro w hw
      rcases List.mem_cons.mp hw with rfl | hw
      · exact hx
      · exact strLe_trans hx (hz w hw)
    | false =>
      simp only [Bool.false_eq_true, if_false]
      refine List.pairwise_cons.mpr ⟨?_, ih hzs⟩
      intro w hw
      rcases mem_insertSorted.mp hw with rfl | hw
      · rcases strLe_total w z with hwz | hzw
        · rw [hwz] at hx; exact absurd hx (by simp)
        · exact hzw
      · exact hz w hw

theorem sorted_sortStrings (l : List String) :
    (Setup.sortStrings l).Pairwise (fun a b => Setup.strLe a b = true) := by
  induction l with
  | nil => simp [Setup.sortStrings]
  | cons x xs ih => exact sorted_insertSorted x _ ih

theorem insertSorted_perm (x : String) (l : List String) :
    (Setup.insertSorted x l).Perm (x :: l) := by
  induction l with
  | nil => rfl
  | cons z zs ih =>
    simp only [Setup.insertSorted]
    cases h : Setup.strLe x z with
    | true => simp
    | false =>
      simp only [Bool.false_eq_true, if_false]
      exact (ih.cons z).trans (List.Perm.swap x z zs)

theorem sortStrings_perm (l : List String) : (Setup.sortStrings l).Perm l := by
  induction l with
  | nil => rfl
  | cons x xs ih => exact (insertSorted_perm x _).trans (ih.cons x)

/-! ### Claim theorems -/

/-- C2: `separate_custom_fields` returns exactly the `_`-prefixed
top-level fields (with their original values, in payload order) and the
payload minus those fields (in payload order), recursing into nothing;
hence no `_`-prefixed top-level key survives in the remaining dict. -/
theorem separate_custom_fields_partition (payload : List (String × Value)) :
    Utils.separate_custom_fields payload =
      (payload.filter (fun kv => startsWithChars kv.1.data ['_']),
       payload.filter (fun kv => !startsWithChars kv.1.data ['_'])) ∧
    ((Utils.separate_custom_fields payload).2.all fun kv => !startsWithChars kv.1.data ['_']) = true := by
  have h : ∀ l : List (String × Value), Utils.separate_custom_fields l =
      (l.filter (fun kv => startsWithChars kv.1.data ['_']),
       l.filter (fun kv => !startsWithChars kv.1.data ['_'])) := by
    intro l
    induction l with
    | nil => rfl
    | cons kv rest ih =>
      simp only [Utils.separate_custom_fields, ih, List.filter_cons]
      by_cases hk : startsWithChars kv.1.data ['_'] <;> simp [hk]
  refine ⟨h payload, ?_⟩
  rw [h payload]
  simp only [List.all_eq_true]
  intro kv hm
  exact (List.mem_filter.mp hm).2

/-- C3: with `mode = "spoke"` and a hub whose name ("HQ") is absent
from the (empty) name→ID cache, the payload sent to the backend still
has `mode = "spoke"` and still contains the untranslated hub — the hub
is not dropped and the mode is not downgraded (`valid_hubs` is dead in
the source). -/
theorem siteToSiteVPN_uncached_hub_kept_mode_spoke :
    Utils.site_to_site_vpn_config testEnv "N_1" []
      (.obj [("mode", .str "spoke"), ("hubs", .arr [.obj [("hubId", .str "HQ")]])]) =
      (.ok ("Success", .obj [("mode", .str "spoke"),
         ("hubs", .arr [.obj [("hubId", .str "HQ")]])]),
       [⟨"updateNetworkApplianceVpnSiteToSiteVpn",
         [.str "N_1", .obj [("mode", .str "spoke"),
           ("hubs", .arr [.obj [("hubId", .str "HQ")]])]]⟩]) ∧
    "spoke" ≠ "hub" :=
  ⟨rfl, by decide⟩

/-- C10: with an existing fragment file, `snmp_config` forwards the
ORIGINAL `{"_ref": ...}` payload to the SNMP update (the loaded
fragment is bound to a dead local and discarded), while `amp_config` —
the pattern every other applier follows — forwards the fragment
contents. -/
theorem snmp_forwards_original_config_not_fragment :
    lookupField testEnv.fs "frag.json" = some (.obj [("v2cEnabled", .bool true)]) ∧
    Utils.snmp_config testEnv "N_1" (.obj [("_ref", .str "frag.json")]) =
      (.ok ("Success", .obj [("_ref", .str "frag.json")]),
       [⟨"updateNetworkSnmp", [.str "N_1", .obj [("_ref", .str "frag.json")]]⟩]) ∧
    Utils.amp_config testEnv "N_1" (.obj [("_ref", .str "frag.json")]) =
      (.ok ("Success", .obj [("v2cEnabled", .bool true)]),
       [⟨"updateNetworkApplianceSecurityMalware",
         [.str "N_1", .obj [("v2cEnabled", .bool true)]]⟩]) ∧
    ("_ref" : String) ≠ "v2cEnabled" :=
  ⟨rfl, rfl, rfl, by decide⟩

/-- C9 counterexample: the report column set is the sorted union of the
section names, but the row of a network that never declared `vlans`
shows the empty string in that column, not `Skipped`. -/
theorem report_undeclared_cell_empty_not_skipped :
    Setup.uniqueSettings [compA, compB] = ["creation", "vlans"] ∧
    Setup.reportRow ["creation", "vlans"] compB = (.str "B", ["[red]Failure[/red]", ""]) ∧
    ("" : String) ≠ "Skipped" :=
  ⟨rfl, rfl, by decide⟩

/-- C9 amended: the column set is the sorted (code-point order),
duplicate-free union of the section names of every completion record; a
declared section's cell shows its recorded status (colour-styled), and
a section the network never declared shows an empty cell. -/
theorem report_columns_sorted_union_cells (completions : List Setup.Completion)
    (c : Setup.Completion) (key : String) :
    (Setup.uniqueSettings completions).Pairwise (fun a b => Setup.strLe a b = true) ∧
    (Setup.uniqueSettings completions).Nodup ∧
    (key ∈ Setup.uniqueSettings completions ↔
      ∃ comp ∈ completions, key ∈ comp.settings.map Prod.fst) ∧
    (∀ r, Setup.lookupSetting c.settings key = some r →
      Setup.reportCell c key = Setup.styledCell r.status) ∧
    (Setup.lookupSetting c.settings key = none → Setup.reportCell c key = "") := by
  refine ⟨sorted_sortStrings _, ?_, ?_, ?_, ?_⟩
  · exact (sortStrings_perm _).symm.nodup (List.nodup_dedup _)
  · simp only [Setup.uniqueSettings]
    rw [(sortStrings_perm _).mem_iff, List.mem_dedup, List.mem_flatMap]
  · intro r hr
    simp [Setup.reportCell, hr]
  · intro hr
    simp [Setup.reportCell, hr]

/-- C9 amended, witness: a declared section's cell carries its styled
status, an undeclared one is empty. -/
theorem report_columns_sorted_union_cells_witness :
    Setup.reportCell compA "creation" = "[green]Success[/green]" ∧
    Setup.reportCell compA "syslog" = "" :=
  ⟨(report_columns_sorted_union_cells [compA] compA "creation").2.2.2.1
     ⟨"Success", .null⟩ rfl,
   (report_columns_sorted_union_cells [compA] compA "syslog").2.2.2.2 rfl⟩

/-- C5 counterexample: a metadata with `productTypes` present but EMPTY
passes the key-presence check, so the creation backend call IS issued
(here it fails, and the record carries the real name, not "N/A"). -/
theorem empty_productTypes_still_calls_backend :
    Setup.build_new_network failEnv none
      (.obj [("metadata", .obj [("name", .str "X"), ("productTypes", .arr [])])]) =
      (.ok ⟨.str "X", [("creation", ⟨"Failure", .str "400 Bad Request"⟩)]⟩,
       [⟨"createOrganizationNetwork",
         [.obj [("name", .str "X"), ("productTypes", .arr [])]]⟩]) ∧
    (Value.arr []).truthy = false ∧
    ("X" : String) ≠ "N/A" :=
  ⟨rfl, rfl, by decide⟩

/-- C5 amended: when metadata is absent/falsy, or the `name` key or
the `productTypes` key is missing, the Builder returns the initial
record (`_name = "N/A"`, creation `Failure`) with no backend calls.
(Emptiness of `productTypes` is NOT checked.) -/
theorem build_missing_metadata_no_calls (env : Env) (copy : Option String)
    (cfg metadata : Value)
    (hmeta : pyDictGet cfg "metadata" .null = .ok metadata)
    (h : metadata.truthy = false ∨
         pyInOp "name" metadata = .ok false ∨
         (pyInOp "name" metadata = .ok true ∧ pyInOp "productTypes" metadata = .ok false)) :
    Setup.build_new_network env copy cfg =
      (.ok ⟨.str "N/A", [("creation", ⟨"Failure", .null⟩)]⟩, []) := by
  unfold Setup.build_new_network
  rw [hmeta]
  rcases h with h | h | ⟨h1, h2⟩
  · simp [h]
  · by_cases ht : metadata.truthy
    · simp [ht, h]
    · simp [ht]
  · by_cases ht : metadata.truthy
    · simp [ht, h1, h2]
    · simp [ht]

/-- C5 amended, witness: a document with no metadata at all. -/
theorem build_missing_metadata_no_calls_witness :
    Setup.build_new_network testEnv none (.obj [("vlans", .arr [])]) =
      (.ok ⟨.str "N/A", [("creation", ⟨"Failure", .null⟩)]⟩, []) :=
  build_missing_metadata_no_calls testEnv none (.obj [("vlans", .arr [])]) .null rfl
    (.inl rfl)

/-- C8 counterexample: a document declaring `firmware` and `claim`
whose creation fails: the returned record's settings dict has ONLY the
`creation` entry — the declared sections are absent, not recorded as
`Skipped`. -/
theorem creation_failure_sections_absent_not_skipped :
    (Setup.build_new_network failEnv none buildCfg).1 =
      .ok ⟨.str "Branch1", [("creation", ⟨"Failure", .str "400 Bad Request"⟩)]⟩ ∧
    (match (Setup.build_new_network failEnv none buildCfg).1 with
     | .ok c => Setup.lookupSetting c.settings "firmware"
     | .crash _ => none) = none ∧
    Value.get? buildCfg "firmware" = some (.obj []) :=
  ⟨rfl, rfl, rfl⟩

/-- C8 amended: a creation failure short-circuits the network — no
section applier runs (the trace is exactly the creation call's trace)
and the completion record contains ONLY the creation entry with status
`Failure`; the declared sections do not appear in the record at all. -/
theorem creation_failure_only_creation_entry (env : Env) (copy : Option String)
    (ncf mf : List (String × Value)) (nameV : Value) (code msg : String)
    (cevs : List CallEvent)
    (hcopy : Setup.copyTruthy copy = false)
    (hm : lookupField ncf "metadata" = some (.obj mf))
    (htru : (Value.obj mf).truthy = true)
    (hn : hasField mf "name" = true)
    (hpt : hasField mf "productTypes" = true)
    (hcreate : Meraki.create_network env.backend (.obj mf) env.netNameToId =
      (.ok (.failure code msg), cevs))
    (hnameV : lookupField mf "name" = some nameV) :
    Setup.build_new_network env copy (.obj ncf) =
      (.ok ⟨nameV, [("creation", ⟨"Failure", .str msg⟩)]⟩, cevs) := by
  unfold Setup.build_new_network
  simp only [pyDictGet, hm, htru, Bool.not_true, Bool.false_eq_true, if_false,
    pyInOp, hn, hpt, hcopy, if_true, hcreate, getItem, hnameV]

/-- C8 amended, witness. -/
theorem creation_failure_only_creation_entry_witness :
    Setup.build_new_network failEnv none
      (.obj [("metadata", .obj [("name", .str "B2"), ("productTypes", .arr [.str "switch"])]),
             ("syslog", .obj [])]) =
      (.ok ⟨.str "B2", [("creation", ⟨"Failure", .str "400 Bad Request"⟩)]⟩,
       [⟨"createOrganizationNetwork",
         [.obj [("name", .str "B2"), ("productTypes", .arr [.str "switch"])]]⟩]) :=
  creation_failure_only_creation_entry failEnv none
    [("metadata", .obj [("name", .str "B2"), ("productTypes", .arr [.str "switch"])]),
     ("syslog", .obj [])]
    [("name", .str "B2"), ("productTypes", .arr [.str "switch"])]
    (.str "B2") "400" "400 Bad Request"
    [⟨"createOrganizationNetwork",
      [.obj [("name", .str "B2"), ("productTypes", .arr [.str "switch"])]]⟩]
    rfl rfl rfl rfl rfl rfl rfl

/-- C4: on a "taken" creation error with the name cached,
`create_network` becomes an update on the cached ID with the same
payload and returns the update's result; when that update succeeds the
Builder records creation `Success` (the upsert). -/
theorem create_network_taken_upsert (b : Backend) (cache : List (String × String))
    (fields : List (String × Value)) (st e0 txt nm nid : String) (es : List String)
    (hcreate : b.createOrganizationNetwork (.obj fields) = .apiError st (e0 :: es) txt)
    (htaken : containsSubstr e0 "taken" = true)
    (hname : lookupField fields "name" = some (.str nm))
    (hcache : lookupStr cache nm = some nid) :
    (Meraki.create_network b (.obj fields) cache =
      ((Meraki.update_network b nid (.obj fields)).1,
       ⟨"createOrganizationNetwork", [.obj fields]⟩ ::
         (Meraki.update_network b nid (.obj fields)).2)) ∧
    (∀ resp, b.updateNetwork nid (.obj fields) = .ok resp →
      Meraki.create_network b (.obj fields) cache =
        (.ok (.success resp),
         [⟨"createOrganizationNetwork", [.obj fields]⟩,
          ⟨"updateNetwork", [.str nid, .obj fields]⟩])) ∧
    (Setup.build_new_network takenEnv none buildUpsertCfg).1 =
      .ok ⟨.str "Branch1",
        [("creation", ⟨"Success", .obj [("id", .str "N_1"), ("name", .str "Branch1")]⟩)]⟩ := by
  refine ⟨?_, ?_, rfl⟩
  · unfold Meraki.create_network
    simp only [hcreate, htaken, hname, hcache, if_true]
  · intro resp hup
    unfold Meraki.create_network Meraki.update_network
    simp only [hcreate, htaken, hname, hcache, if_true, hup, sdkToRet]

/-- C4 witness: the concrete upsert over `takenB`. -/
theorem create_network_taken_upsert_witness :
    Meraki.create_network takenB (.obj [("name", .str "Branch1")]) [("Branch1", "N_OLD")] =
      (.ok (.success (.obj [("id", .str "N_1"), ("name", .str "Branch1")])),
       [⟨"createOrganizationNetwork", [.obj [("name", .str "Branch1")]]⟩,
        ⟨"updateNetwork", [.str "N_OLD", .obj [("name", .str "Branch1")]]⟩]) :=
  (create_network_taken_upsert takenB [("Branch1", "N_OLD")] [("name", .str "Branch1")]
    "400" "Name already taken" "400 Bad Request" "Branch1" "N_OLD" []
    rfl (by decide) rfl rfl).2.1
    (.obj [("id", .str "N_1"), ("name", .str "Branch1")]) rfl

/-- C1 counterexample: in a document declaring `firmware` before
`claim`, the firmware applier's backend calls all precede the claim
call — the appliers run in document key order, not in the fixed
precedence order (which puts `claim` first). -/
theorem firmware_ops_precede_claim_op_in_document_order :
    (Setup.build_new_network testEnv none buildCfg).2.map CallEvent.op =
      ["createOrganizationNetwork", "getNetworkFirmwareUpgrades",
       "updateNetworkFirmwareUpgrades", "claimNetworkDevices"] ∧
    List.indexOf "getNetworkFirmwareUpgrades"
        ["createOrganizationNetwork", "getNetworkFirmwareUpgrades",
         "updateNetworkFirmwareUpgrades", "claimNetworkDevices"] <
      List.indexOf "claimNetworkDevices"
        ["createOrganizationNetwork", "getNetworkFirmwareUpgrades",
         "updateNetworkFirmwareUpgrades", "claimNetworkDevices"] :=
  ⟨rfl, by decide⟩

/-- The loop of `build_new_network` emits, in order, exactly the
concatenation of each document entry's section-applier events. -/
theorem buildLoop_events (env : Env) (net_id : String) :
    ∀ (entries : List (String × Value))
      (settings out : List (String × Setup.SettingResult)) (evs : List CallEvent),
      Setup.buildLoop env net_id settings entries = (.ok out, evs) →
      evs = entries.flatMap (Setup.sectionEvents env net_id) := by
  intro entries
  induction entries with
  | nil =>
    intro settings out evs h
    simp only [Setup.buildLoop, Prod.mk.injEq] at h
    simp [h.2.symm]
  | cons kv rest ih =>
    intro settings out evs h
    obtain ⟨k, payload⟩ := kv
    simp only [Setup.buildLoop] at h
    cases hap : Setup.applySection env net_id k payload with
    | none =>
      rw [hap] at h
      have := ih _ _ _ h
      simp [List.flatMap_cons, Setup.sectionEvents, hap, this]
    | some r =>
      rw [hap] at h
      obtain ⟨r1, r2⟩ := r
      dsimp only at h
      cases r1 with
      | crash m => simp at h
      | ok so =>
        rw [Prod.ext_iff] at h
        obtain ⟨h1, h2⟩ := h
        dsimp only at h1 h2
        have hh : Setup.buildLoop env net_id
            (Setup.setSetting settings k ⟨so.1, so.2⟩) rest =
            (.ok out, (Setup.buildLoop env net_id
              (Setup.setSetting settings k ⟨so.1, so.2⟩) rest).2) := by
          rw [← h1]
        have hrest := ih _ _ _ hh
        rw [← h2, hrest]
        simp [List.flatMap_cons, Setup.sectionEvents, hap]

/-- C1 amended: for a network whose creation succeeds, the backend
trace is the creation call's events followed by, in DOCUMENT KEY ORDER
(metadata removed), each declared section's applier events — i.e. the
appliers run in the order the keys appear in the document, not in a
fixed precedence order. -/
theorem build_sections_apply_in_document_order (env : Env) (copy : Option String)
    (ncf mf : List (String × Value)) (resp nameV : Value) (net_id : String)
    (cevs levs : List CallEvent) (settings1 : List (String × Setup.SettingResult))
    (hcopy : Setup.copyTruthy copy = false)
    (hm : lookupField ncf "metadata" = some (.obj mf))
    (htru : (Value.obj mf).truthy = true)
    (hn : hasField mf "name" = true)
    (hpt : hasField mf "productTypes" = true)
    (hcreate : Meraki.create_network env.backend (.obj mf) env.netNameToId =
      (.ok (.success resp), cevs))
    (hid : resp.get? "id" = some (.str net_id))
    (hname : resp.get? "name" = some nameV)
    (hloop : Setup.buildLoop env net_id
      (Setup.initSettings [("creation", ⟨"Success", resp⟩)]
        ((delField ncf "metadata").map Prod.fst))
      (delField ncf "metadata") = (.ok settings1, levs)) :
    Setup.build_new_network env copy (.obj ncf) =
      (.ok ⟨nameV, settings1⟩, cevs ++ levs) ∧
    levs = (delField ncf "metadata").flatMap (Setup.sectionEvents env net_id) := by
  constructor
  · unfold Setup.build_new_network
    simp only [pyDictGet, hm, htru, Bool.not_true, Bool.false_eq_true, if_false,
      pyInOp, hn, hpt, hcopy, hcreate, hid, hname, hloop]
  · exact buildLoop_events env net_id _ _ _ _ hloop

/-- C1 amended, witness: the concrete document with `firmware` before
`claim` produces exactly the creation call followed by the firmware
events followed by the claim event. -/
theorem build_sections_apply_in_document_order_witness :
    Setup.build_new_network testEnv none buildCfg =
      (.ok ⟨.str "Branch1",
        [("creation", ⟨"Success", .obj [("id", .str "N_1"), ("name", .str "Branch1")]⟩),
         ("firmware", ⟨"Success", .arr []⟩),
         ("claim", ⟨"Success", .obj [("serials", .arr [])]⟩)]⟩,
       [⟨"createOrganizationNetwork",
          [.obj [("name", .str "Branch1"), ("productTypes", .arr [.str "appliance"])]]⟩] ++
       [⟨"getNetworkFirmwareUpgrades", [.str "N_1"]⟩,
        ⟨"updateNetworkFirmwareUpgrades", [.str "N_1", .obj []]⟩,
        ⟨"claimNetworkDevices", [.str "N_1", .arr [.str "Q234"]]⟩]) :=
  (build_sections_apply_in_document_order testEnv none
    [("metadata", .obj [("name", .str "Branch1"), ("productTypes", .arr [.str "appliance"])]),
     ("firmware", .obj []),
     ("claim", .obj [("serials", .arr [.str "Q234"])])]
    [("name", .str "Branch1"), ("productTypes", .arr [.str "appliance"])]
    (.obj [("id", .str "N_1"), ("name", .str "Branch1")]) (.str "Branch1") "N_1"
    [⟨"createOrganizationNetwork",
       [.obj [("name", .str "Branch1"), ("productTypes", .arr [.str "appliance"])]]⟩]
    [⟨"getNetworkFirmwareUpgrades", [.str "N_1"]⟩,
     ⟨"updateNetworkFirmwareUpgrades", [.str "N_1", .obj []]⟩,
     ⟨"claimNetworkDevices", [.str "N_1", .arr [.str "Q234"]]⟩]
    [("creation", ⟨"Success", .obj [("id", .str "N_1"), ("name", .str "Branch1")]⟩),
     ("firmware", ⟨"Success", .arr []⟩),
     ("claim", ⟨"Success", .obj [("serials", .arr [])]⟩)]
    rfl rfl rfl rfl rfl rfl rfl rfl rfl).1

/-! ### Lookup lemmas and the firmware conversion characterisation -/

theorem lookupField_setField_self (fs : List (String × Value)) (k : String) (v : Value) :
    lookupField (setField fs k v) k = some v := by
  induction fs with
  | nil => simp [setField, lookupField]
  | cons p rest ih =>
    obtain ⟨k1, v1⟩ := p
    by_cases h : k1 = k
    · simp [setField, lookupField, h]
    · simp [setField, lookupField, h, ih]

theorem lookupField_setField_ne (fs : List (String × Value)) (k k2 : String) (v : Value)
    (h : k ≠ k2) : lookupField (setField fs k2 v) k = lookupField fs k := by
  induction fs with
  | nil => simp [setField, lookupField, Ne.symm h]
  | cons p rest ih =>
    obtain ⟨k1, v1⟩ := p
    by_cases h1 : k1 = k2
    · subst h1
      simp [setField, lookupField, Ne.symm h]
    · simp only [setField, if_neg h1, lookupField]
      by_cases h2 : k1 = k <;> simp [h2, ih]

theorem lookupField_eq_none_of_keyCount_zero (fs : List (String × Value)) (k : String)
    (h : keyCount fs k = 0) : lookupField fs k = none := by
  induction fs with
  | nil => rfl
  | cons p rest ih =>
    obtain ⟨k1, v1⟩ := p
    by_cases h1 : k1 = k
    · simp [keyCount, List.filter_cons, h1] at h
    · simp only [keyCount, List.filter_cons] at h
      rw [if_neg (by simpa using h1)] at h
      simp [lookupField, h1, ih h]

theorem lookupField_delField_of_keyCount (fs : List (String × Value)) (k : String)
    (h : keyCount fs k ≤ 1) : lookupField (delField fs k) k = none := by
  induction fs with
  | nil => rfl
  | cons p rest ih =>
    obtain ⟨k1, v1⟩ := p
    by_cases h1 : k1 = k
    · simp only [delField, if_pos h1]
      apply lookupField_eq_none_of_keyCount_zero
      have hc : keyCount ((k1, v1) :: rest) k = 1 + keyCount rest k := by
        simp [keyCount, List.filter_cons, h1, Nat.add_comm]
      omega
    · simp only [delField, if_neg h1, lookupField, h1, if_neg (by simpa using h1)]
      apply ih
      simp only [keyCount, List.filter_cons] at h
      rw [if_neg (by simpa using h1)] at h
      exact h

theorem get?_eq_none_of_pyInOp_false (v : Value) (k : String)
    (h : pyInOp k v = .ok false) : v.get? k = none := by
  cases v with
  | obj fs =>
    simp only [pyInOp, PyRes.ok.injEq] at h
    simp only [Value.get?]
    simpa [hasField, Option.isSome_iff_exists] using h
  | arr xs => rfl
  | str s => rfl
  | null => simp [pyInOp] at h
  | bool b => simp [pyInOp] at h
  | int n => simp [pyInOp] at h

theorem get?_eq_some_of_getItem_ok (v w : Value) (k : String)
    (h : getItem v k = .ok w) : v.get? k = some w := by
  cases v with
  | obj fs =>
    simp only [getItem] at h
    cases hl : lookupField fs k with
    | none => rw [hl] at h; cases h
    | some u => rw [hl] at h; cases h; simpa [Value.get?] using hl
  | null => cases h
  | bool b => cases h
  | int n => cases h
  | str s => cases h
  | arr xs => cases h

theorem getItem_ok_obj (v w : Value) (k : String) (h : getItem v k = .ok w) :
    ∃ fs, v = .obj fs ∧ lookupField fs k = some w := by
  cases v with
  | obj fs =>
    refine ⟨fs, rfl, ?_⟩
    simp only [getItem] at h
    cases hl : lookupField fs k with
    | none => rw [hl] at h; cases h
    | some u => rw [hl] at h; cases h; rfl
  | null => cases h
  | bool b => cases h
  | int n => cases h
  | str s => cases h
  | arr xs => cases h

theorem convertEntry_ok_spec (table : List (String × Value)) (pu : Value)
    (er : Utils.EntryRes) (h : Utils.convertEntry table pu = .ok er) :
    (er = .keep ∧ requestedName pu = none) ∨
    (∃ sn, er = .missing sn ∧ requestedName pu = some sn ∧ lookupVal table sn = none) ∨
    (∃ s idv puf nuf tvf, pu = .obj puf ∧
      lookupField puf "nextUpgrade" = some (.obj nuf) ∧
      lookupField nuf "toVersion" = some (.obj tvf) ∧
      lookupField tvf "_name_id" = some (.str s) ∧
      lookupField table s = some idv ∧
      er = .converted (.obj (setField puf "nextUpgrade" (.obj (setField nuf "toVersion"
        (.obj (setField (delField tvf "_name_id") "id" idv)))))) (.str s)) := by
  unfold Utils.convertEntry at h
  split at h
  · exact absurd h (by simp)
  · next hin1 =>
    left
    refine ⟨by injection h with h2; exact h2.symm, ?_⟩
    simp [requestedName, get?_eq_none_of_pyInOp_false _ _ hin1]
  · split at h
    · exact absurd h (by simp)
    · next nu hget1 =>
      have hpu := get?_eq_some_of_getItem_ok _ _ _ hget1
      split at h
      · exact absurd h (by simp)
      · next hin2 =>
        left
        refine ⟨by injection h with h2; exact h2.symm, ?_⟩
        simp [requestedName, hpu, get?_eq_none_of_pyInOp_false _ _ hin2]
      · next hin2 =>
        split at h
        · exact absurd h (by simp)
        · next tv hget2 =>
          have hnu := get?_eq_some_of_getItem_ok _ _ _ hget2
          split at h
          · exact absurd h (by simp)
          · next hin3 =>
            left
            refine ⟨by injection h with h2; exact h2.symm, ?_⟩
            simp [requestedName, hpu, hnu, get?_eq_none_of_pyInOp_false _ _ hin3]
          · next hin3 =>
            split at h
            · exact absurd h (by simp)
            · next fn hget3 =>
              split at h
              · next v s =>
                have htv := get?_eq_some_of_getItem_ok _ _ _ hget3
                split at h
                · next idv hidv =>
                  right; right
                  obtain ⟨puf, hpuf, hlpu⟩ := getItem_ok_obj _ _ _ hget1
                  obtain ⟨nuf, hnuf, hlnu⟩ := getItem_ok_obj _ _ _ hget2
                  obtain ⟨tvf, htvf, hltv⟩ := getItem_ok_obj _ _ _ hget3
                  subst hpuf; subst hnuf; subst htvf
                  refine ⟨s, idv, puf, nuf, tvf, rfl, hlpu, hlnu, hltv, hidv, ?_⟩
                  injection h with h2
                  simp only [objFields] at h2
                  exact h2.symm
                · next hidv =>
                  have htv2 := get?_eq_some_of_getItem_ok _ _ _ hget3
                  right; left
                  refine ⟨.str s, by injection h with h2; exact h2.symm, ?_, ?_⟩
                  · simp [requestedName, hpu, hnu, htv2]
                  · simp [lookupVal, hidv]
              · exact absurd h (by simp)
              · exact absurd h (by simp)
              · next _ h1 h2 h3 =>
                have htv := get?_eq_some_of_getItem_ok _ _ _ hget3
                right; left
                refine ⟨fn, by injection h with h4; exact h4.symm, ?_, ?_⟩
                · simp [requestedName, hpu, hnu, htv]
                · cases fn with
                  | str s => exact absurd rfl (h1 s)
                  | arr xs => exact absurd rfl (h2 xs)
                  | obj fs => exact absurd rfl (h3 fs)
                  | null => rfl
                  | bool b => rfl
                  | int n => rfl

theorem convertProducts_found_spec (table : List (String × Value)) :
    ∀ (prods prods2 : List (String × Value)) (sns : List Value),
      Utils.convertProducts table prods = .ok (.found prods2 sns) →
      wfProducts prods = true →
      sns = requestedNames prods ∧
      requestedNames prods2 = [] ∧
      prods2.map (fun p => toVersionIdOf p.2) =
        List.zipWith (fun nm oldId => match nm with
          | some v => lookupVal table v
          | none => oldId)
          (prods.map fun p => requestedName p.2)
          (prods.map fun p => toVersionIdOf p.2) := by
  intro prods
  induction prods with
  | nil =>
    intro prods2 sns h _
    simp only [Utils.convertProducts] at h
    injection h with h2
    injection h2 with h3 h4
    subst h3; subst h4
    simp [requestedNames]
  | cons p rest ih =>
    intro prods2 sns h hwf
    obtain ⟨pname, pu⟩ := p
    have hwf1 : wfEntry pu = true ∧ wfProducts rest = true := by
      simpa [wfProducts, List.all_cons] using hwf
    cases hce : Utils.convertEntry table pu with
    | crash m => simp [Utils.convertProducts, hce] at h
    | ok er =>
      rcases convertEntry_ok_spec table pu er hce with
        ⟨hk, hreq⟩ | ⟨sn, hm, _, _⟩ | ⟨s, idv, puf, nuf, tvf, hpuf, hlpu, hlnu, hltv, hidv, hconv⟩
      · -- keep
        subst hk
        simp only [Utils.convertProducts, hce] at h
        cases hrest : Utils.convertProducts table rest with
        | crash m => rw [hrest] at h; cases h
        | ok cr =>
          cases cr with
          | missing sn => rw [hrest] at h; cases h
          | found ps sns2 =>
            rw [hrest] at h
            injection h with h2
            injection h2 with h3 h4
            subst h3; subst h4
            obtain ⟨e1, e2, e3⟩ := ih ps sns2 hrest hwf1.2
            refine ⟨?_, ?_, ?_⟩
            · simp [requestedNames, List.filterMap_cons, hreq] at e1 ⊢
              exact e1
            · simpa [requestedNames, List.filterMap_cons, hreq] using e2
            · simp [List.map_cons, List.zipWith, hreq, e3]
      · subst hm
        simp only [Utils.convertProducts, hce] at h
        cases h
      · -- converted
        subst hconv
        simp only [Utils.convertProducts, hce] at h
        cases hrest : Utils.convertProducts table rest with
        | crash m => rw [hrest] at h; cases h
        | ok cr =>
          cases cr with
          | missing sn => rw [hrest] at h; cases h
          | found ps sns2 =>
            rw [hrest] at h
            injection h with h2
            injection h2 with h3 h4
            subst h3; subst h4
            obtain ⟨e1, e2, e3⟩ := ih ps sns2 hrest hwf1.2
            subst hpuf
            have hreq : requestedName (Value.obj puf) = some (.str s) := by
              simp [requestedName, Value.get?, hlpu, hlnu, hltv]
            have hwtv : keyCount tvf "_name_id" ≤ 1 := by
              have := hwf1.1
              simp only [wfEntry, tvOf, Value.get?, hlpu, hlnu, Option.bind] at this
              exact of_decide_eq_true this
            have hreq2 : requestedName (Value.obj (setField puf "nextUpgrade"
                (Value.obj (setField nuf "toVersion"
                  (Value.obj (setField (delField tvf "_name_id") "id" idv)))))) = none := by
              simp only [requestedName, Value.get?, lookupField_setField_self, Option.bind]
              rw [lookupField_setField_ne _ _ _ _ (by decide)]
              exact lookupField_delField_of_keyCount _ _ hwtv
            have hid2 : toVersionIdOf (Value.obj (setField puf "nextUpgrade"
                (Value.obj (setField nuf "toVersion"
                  (Value.obj (setField (delField tvf "_name_id") "id" idv)))))) = some idv := by
              simp only [toVersionIdOf, Value.get?, lookupField_setField_self, Option.bind]
            refine ⟨?_, ?_, ?_⟩
            · simp [requestedNames, List.filterMap_cons, hreq] at e1 ⊢
              exact e1
            · simpa [requestedNames, List.filterMap_cons, hreq2] using e2
            · simp only [List.map_cons, List.zipWith, hreq, hid2, e3, lookupVal, hidv]

theorem convertProducts_missing_of_bad (table : List (String × Value)) :
    ∀ prods : List (String × Value),
      (∀ m, Utils.convertProducts table prods ≠ .crash m) →
      (∃ v ∈ requestedNames prods, lookupVal table v = none) →
      ∃ sn, Utils.convertProducts table prods = .ok (.missing sn) := by
  intro prods
  induction prods with
  | nil => intro _ hex; simp [requestedNames] at hex
  | cons p rest ih =>
    intro hnc hex
    obtain ⟨pname, pu⟩ := p
    cases hce : Utils.convertEntry table pu with
    | crash m => exact absurd (by simp [Utils.convertProducts, hce]) (hnc m)
    | ok er =>
      rcases convertEntry_ok_spec table pu er hce with
        ⟨hk, hreq⟩ | ⟨sn, hm2, hreq, hlv⟩ |
        ⟨s, idv, puf, nuf, tvf, hpuf, hlpu, hlnu, hltv, hidv, hconv⟩
      · subst hk
        have hnc2 : ∀ m, Utils.convertProducts table rest ≠ .crash m := by
          intro m hm
          exact hnc m (by simp [Utils.convertProducts, hce, hm])
        have hex2 : ∃ v ∈ requestedNames rest, lookupVal table v = none := by
          simpa [requestedNames, List.filterMap_cons, hreq] using hex
        obtain ⟨sn, hsn⟩ := ih hnc2 hex2
        exact ⟨sn, by simp [Utils.convertProducts, hce, hsn]⟩
      · subst hm2
        exact ⟨sn, by simp [Utils.convertProducts, hce]⟩
      · subst hconv
        subst hpuf
        have hnc2 : ∀ m, Utils.convertProducts table rest ≠ .crash m := by
          intro m hm
          exact hnc m (by simp [Utils.convertProducts, hce, hm])
        have hreq : requestedName (Value.obj puf) = some (.str s) := by
          simp [requestedName, Value.get?, hlpu, hlnu, hltv]
        have hex2 : ∃ v ∈ requestedNames rest, lookupVal table v = none := by
          rcases hex with ⟨v, hv, hvn⟩
          simp only [requestedNames, List.filterMap_cons, hreq, List.mem_cons] at hv
          rcases hv with rfl | hv
          · rw [show lookupVal table (Value.str s) = some idv from by simp [lookupVal, hidv]] at hvn
            cases hvn
          · exact ⟨v, hv, hvn⟩
        obtain ⟨sn, hsn⟩ := ih hnc2 hex2
        exact ⟨sn, by simp [Utils.convertProducts, hce, hsn]⟩

theorem convertProducts_found_of_good (table : List (String × Value)) :
    ∀ prods : List (String × Value),
      (∀ m, Utils.convertProducts table prods ≠ .crash m) →
      (∀ v ∈ requestedNames prods, (lookupVal table v).isSome) →
      ∃ prods2 sns, Utils.convertProducts table prods = .ok (.found prods2 sns) := by
  intro prods
  induction prods with
  | nil => intro _ _; exact ⟨[], [], rfl⟩
  | cons p rest ih =>
    intro hnc hall
    obtain ⟨pname, pu⟩ := p
    cases hce : Utils.convertEntry table pu with
    | crash m => exact absurd (by simp [Utils.convertProducts, hce]) (hnc m)
    | ok er =>
      rcases convertEntry_ok_spec table pu er hce with
        ⟨hk, hreq⟩ | ⟨sn, hm2, hreq, hlv⟩ |
        ⟨s, idv, puf, nuf, tvf, hpuf, hlpu, hlnu, hltv, hidv, hconv⟩
      · subst hk
        have hnc2 : ∀ m, Utils.convertProducts table rest ≠ .crash m := by
          intro m hm
          exact hnc m (by simp [Utils.convertProducts, hce, hm])
        have hall2 : ∀ v ∈ requestedNames rest, (lookupVal table v).isSome := by
          intro v hv
          exact hall v (by simpa [requestedNames, List.filterMap_cons, hreq] using hv)
        obtain ⟨ps, sns, hres⟩ := ih hnc2 hall2
        exact ⟨(pname, pu) :: ps, sns, by simp [Utils.convertProducts, hce, hres]⟩
      · subst hm2
        have hs : sn ∈ requestedNames ((pname, pu) :: rest) := by
          simp [requestedNames, List.filterMap_cons, hreq]
        have := hall sn hs
        rw [hlv] at this
        cases this
      · subst hconv
        subst hpuf
        have hreqh : requestedName (Value.obj puf) = some (.str s) := by
          simp [requestedName, Value.get?, hlpu, hlnu, hltv]
        have hnc2 : ∀ m, Utils.convertProducts table rest ≠ .crash m := by
          intro m hm
          exact hnc m (by simp [Utils.convertProducts, hce, hm])
        have hall2 : ∀ v ∈ requestedNames rest, (lookupVal table v).isSome := by
          intro v hv
          refine hall v ?_
          simp only [requestedNames, List.filterMap_cons, hreqh, List.mem_cons]
          exact Or.inr (by simpa [requestedNames] using hv)
        obtain ⟨ps, sns, hres⟩ := ih hnc2 hall2
        refine ⟨(pname, Value.obj (setField puf "nextUpgrade"
            (Value.obj (setField nuf "toVersion"
              (Value.obj (setField (delField tvf "_name_id") "id" idv)))))) :: ps,
          Value.str s :: sns, ?_⟩
        simp [Utils.convertProducts, hce, hres]

theorem trigger_events (b : Backend) (net_id : String) (fields : List (String × Value)) :
    (Meraki.trigger_network_firmware_upgrades b net_id (.obj fields)).2 =
      [⟨"updateNetworkFirmwareUpgrades", [.str net_id, .obj fields]⟩] := by
  unfold Meraki.trigger_network_firmware_upgrades
  cases b.updateNetworkFirmwareUpgrades net_id (.obj fields) with
  | ok r => rfl
  | sdkError t => rfl
  | apiError s errors t =>
    cases errors with
    | nil => rfl
    | cons e0 es =>
      dsimp only
      split <;> rfl

theorem firmwareFinish_events (env : Env) (net_id : String)
    (fields : List (String × Value)) (sns : List Value) (evs : List CallEvent) :
    (Utils.firmwareFinish env net_id (.obj fields) sns evs).2 =
      evs ++ [⟨"updateNetworkFirmwareUpgrades", [.str net_id, .obj fields]⟩] := by
  unfold Utils.firmwareFinish
  have ht := trigger_events env.backend net_id fields
  dsimp only
  split <;> simp_all

/-- C6: with the firmware info fetched, a requested
`toVersion._name_id` absent from the name→ID table (current plus
available versions) makes `firmware_upgrade` return Failure without
ever invoking the upgrade trigger; when every requested name is found,
the trigger is invoked once, with every `_name_id` key removed and the
`id` field set to the translated ID. -/
theorem firmware_unknown_version_guard (env : Env) (net_id : String)
    (cf prods : List (String × Value)) (info : FirmwareInfo)
    (href : lookupField cf "_ref" = none)
    (hget : env.backend.getNetworkFirmwareUpgrades net_id = .ok info)
    (hprods : lookupField cf "products" = some (.obj prods))
    (hnc : ∀ m, Utils.convertProducts (Utils.buildFirmwareTable info.products) prods ≠ .crash m)
    (hwf : wfProducts prods = true) :
    ((∃ v ∈ requestedNames prods,
        lookupVal (Utils.buildFirmwareTable info.products) v = none) →
      Utils.firmware_upgrade env net_id (.obj cf) =
        (.ok ("Failure", .str "Unable to find version in available versions"),
         [⟨"getNetworkFirmwareUpgrades", [.str net_id]⟩])) ∧
    ((∀ v ∈ requestedNames prods,
        (lookupVal (Utils.buildFirmwareTable info.products) v).isSome) →
      ∃ prods2 sns,
        Utils.convertProducts (Utils.buildFirmwareTable info.products) prods =
          .ok (.found prods2 sns) ∧
        (Utils.firmware_upgrade env net_id (.obj cf)).2 =
          [⟨"getNetworkFirmwareUpgrades", [.str net_id]⟩,
           ⟨"updateNetworkFirmwareUpgrades",
             [.str net_id, .obj (setField cf "products" (.obj prods2))]⟩] ∧
        sns = requestedNames prods ∧
        requestedNames prods2 = [] ∧
        prods2.map (fun p => toVersionIdOf p.2) =
          List.zipWith (fun nm oldId => match nm with
            | some v => lookupVal (Utils.buildFirmwareTable info.products) v
            | none => oldId)
            (prods.map fun p => requestedName p.2)
            (prods.map fun p => toVersionIdOf p.2)) := by
  constructor
  · intro hex
    obtain ⟨sn, hms⟩ := convertProducts_missing_of_bad _ prods hnc hex
    unfold Utils.firmware_upgrade
    simp only [Utils.refResolve, pyInOp, hasField, href, Option.isSome_none,
      Bool.false_eq_true, Utils.resolvedConfig, Meraki.get_network_firmware_upgrades,
      hget, sdkToRet, hprods, Option.isSome_some, getItem, hms]
  · intro hall
    obtain ⟨prods2, sns, hfound⟩ := convertProducts_found_of_good _ prods hnc hall
    obtain ⟨e1, e2, e3⟩ := convertProducts_found_spec _ prods prods2 sns hfound hwf
    refine ⟨prods2, sns, hfound, ?_, e1, e2, e3⟩
    unfold Utils.firmware_upgrade
    simp only [Utils.refResolve, pyInOp, hasField, href, Option.isSome_none,
      Bool.false_eq_true, Utils.resolvedConfig, Meraki.get_network_firmware_upgrades,
      hget, sdkToRet, hprods, Option.isSome_some, getItem, hfound, objFields]
    rw [firmwareFinish_events]
    rfl

/-- C6 witness: "MX 99" is not in the table built from `okB`'s versions
(MX 17 current, MX 18 available) — Failure without a trigger call;
"MX 18" is — the trigger payload carries `id = "18"` and no `_name_id`. -/
theorem firmware_unknown_version_guard_witness :
    Utils.firmware_upgrade testEnv "N_1"
      (.obj [("products", .obj [("appliance", .obj [("nextUpgrade",
        .obj [("toVersion", .obj [("_name_id", .str "MX 99")])])])])]) =
      (.ok ("Failure", .str "Unable to find version in available versions"),
       [⟨"getNetworkFirmwareUpgrades", [.str "N_1"]⟩]) ∧
    (Utils.firmware_upgrade testEnv "N_1"
      (.obj [("products", .obj [("appliance", .obj [("nextUpgrade",
        .obj [("toVersion", .obj [("_name_id", .str "MX 18")])])])])])).2 =
      [⟨"getNetworkFirmwareUpgrades", [.str "N_1"]⟩,
       ⟨"updateNetworkFirmwareUpgrades", [.str "N_1",
         .obj [("products", .obj [("appliance", .obj [("nextUpgrade",
           .obj [("toVersion", .obj [("id", .str "18")])])])])]]⟩] :=
  ⟨(firmware_unknown_version_guard testEnv "N_1"
      [("products", .obj [("appliance", .obj [("nextUpgrade",
        .obj [("toVersion", .obj [("_name_id", .str "MX 99")])])])])]
      [("appliance", .obj [("nextUpgrade",
        .obj [("toVersion", .obj [("_name_id", .str "MX 99")])])])]
      ⟨[("appliance", ⟨⟨"MX 17", .str "17"⟩, [⟨"MX 18", .str "18"⟩]⟩)]⟩
      rfl rfl rfl
      (by intro m h
          have hcv : Utils.convertProducts
              (Utils.buildFirmwareTable
                [("appliance", ⟨⟨"MX 17", .str "17"⟩, [⟨"MX 18", .str "18"⟩]⟩)])
              [("appliance", .obj [("nextUpgrade",
                .obj [("toVersion", .obj [("_name_id", .str "MX 99")])])])] =
              .ok (.missing (.str "MX 99")) := rfl
          rw [hcv] at h
          cases h)
      rfl).1
    ⟨.str "MX 99",
     by show Value.str "MX 99" ∈ [Value.str "MX 99"]
        exact List.mem_singleton.mpr rfl,
     rfl⟩,
   rfl⟩

theorem refResolve_notFound (env : Env) (f : String) (hf : lookupField env.fs f = none) :
    Utils.refResolve env (.obj [("_ref", .str f)]) = .ok .notFound := by
  simp [Utils.refResolve, pyInOp, hasField, lookupField, getItem, Utils.load_ref_config, hf]

theorem vlanVpnStep_param (env : Env) (custom : List (String × Value)) (new_vlan : Value) :
    (∃ m, ∀ st, Utils.vlanVpnStep env custom new_vlan st = .crash m) ∨
    (∀ st, Utils.vlanVpnStep env custom new_vlan st =
      .ok (.next { st with status := "Partial" })) ∨
    (∃ adds, ∀ st : Utils.VlanSt, Utils.vlanVpnStep env custom new_vlan st =
      .ok (.go { st with vpnSubnets := st.vpnSubnets ++ adds })) := by
  unfold Utils.vlanVpnStep
  cases hl : lookupField custom "_vpn" with
  | none =>
    right; right
    exact ⟨[], fun st => by cases st; simp⟩
  | some vpn0 =>
    cases h1 : Utils.refResolve env vpn0 with
    | crash m => left; exact ⟨m, fun st => by simp [h1]⟩
    | ok step =>
      cases step with
      | notFound => right; left; intro st; simp [h1]
      | noRef =>
        cases h2 : pyDictGet (Utils.resolvedConfig .noRef vpn0) "useVpn" (.bool false) with
        | crash m => left; exact ⟨m, fun st => by simp [h1, h2]⟩
        | ok useVpn =>
          cases h3 : new_vlan.get? "subnet" with
          | none => left; exact ⟨"KeyError: subnet", fun st => by simp [h1, h2, h3]⟩
          | some subnet =>
            right; right
            exact ⟨[Value.obj [("localSubnet", subnet), ("useVpn", useVpn)]],
              fun st => by simp [h1, h2, h3]⟩
      | loaded v =>
        cases h2 : pyDictGet (Utils.resolvedConfig (.loaded v) vpn0) "useVpn" (.bool false) with
        | crash m => left; exact ⟨m, fun st => by simp [h1, h2]⟩
        | ok useVpn =>
          cases h3 : new_vlan.get? "subnet" with
          | none => left; exact ⟨"KeyError: subnet", fun st => by simp [h1, h2, h3]⟩
          | some subnet =>
            right; right
            exact ⟨[Value.obj [("localSubnet", subnet), ("useVpn", useVpn)]],
              fun st => by simp [h1, h2, h3]⟩

theorem vlanDhcpStep_param (env : Env) (net : String) (custom : List (String × Value))
    (vlanId : Value) :
    (∃ m evs, ∀ st, Utils.vlanDhcpStep env net custom vlanId st = (.crash m, evs)) ∨
    (∃ (evs : List CallEvent) (forced : Bool), ∀ st : Utils.VlanSt,
      Utils.vlanDhcpStep env net custom vlanId st =
      (.ok ⟨cond forced "Partial" st.status, st.vpnSubnets⟩, evs)) := by
  unfold Utils.vlanDhcpStep
  cases hl : lookupField custom "_dhcp" with
  | none =>
    right
    exact ⟨[], false, fun st => by cases st; simp⟩
  | some dhcp0 =>
    cases h1 : Utils.refResolve env dhcp0 with
    | crash m => left; exact ⟨m, [], fun st => by simp [h1]⟩
    | ok step =>
      cases step with
      | notFound => right; exact ⟨[], true, fun st => by cases st; simp [h1]⟩
      | noRef =>
        cases h2 : (Meraki.update_vlan env.backend net vlanId
            (Utils.resolvedConfig .noRef dhcp0)).1 with
        | crash m =>
          left
          exact ⟨m, (Meraki.update_vlan env.backend net vlanId
            (Utils.resolvedConfig .noRef dhcp0)).2, fun st => by simp [h1, h2]⟩
        | ok ret =>
          cases ret with
          | failure code msg =>
            right
            exact ⟨(Meraki.update_vlan env.backend net vlanId
              (Utils.resolvedConfig .noRef dhcp0)).2, true, fun st => by cases st; simp [h1, h2]⟩
          | success resp =>
            right
            exact ⟨(Meraki.update_vlan env.backend net vlanId
              (Utils.resolvedConfig .noRef dhcp0)).2, false, fun st => by cases st; simp [h1, h2]⟩
      | loaded v =>
        cases h2 : (Meraki.update_vlan env.backend net vlanId
            (Utils.resolvedConfig (.loaded v) dhcp0)).1 with
        | crash m =>
          left
          exact ⟨m, (Meraki.update_vlan env.backend net vlanId
            (Utils.resolvedConfig (.loaded v) dhcp0)).2, fun st => by simp [h1, h2]⟩
        | ok ret =>
          cases ret with
          | failure code msg =>
            right
            exact ⟨(Meraki.update_vlan env.backend net vlanId
              (Utils.resolvedConfig (.loaded v) dhcp0)).2, true, fun st => by cases st; simp [h1, h2]⟩
          | success resp =>
            right
            exact ⟨(Meraki.update_vlan env.backend net vlanId
              (Utils.resolvedConfig (.loaded v) dhcp0)).2, false, fun st => by cases st; simp [h1, h2]⟩

theorem processVlanItem_param_aux (env : Env) (net : String)
    (pg : List (String × Value)) (item : Value) (step : Utils.RefStep) (cfg : Value)
    (h1 : Utils.refResolve env item = .ok step)
    (hres : Utils.resolvedConfig step item = cfg)
    (hnf : step ≠ .notFound) :
    (∃ m evs, ∀ st, Utils.processVlanItem env net pg st item = (.crash m, evs)) ∨
    (∃ (evs : List CallEvent) (adds : List Value) (forced : Bool), ∀ st : Utils.VlanSt,
      Utils.processVlanItem env net pg st item =
        (.ok ⟨cond forced "Partial" st.status, st.vpnSubnets ++ adds⟩, evs)) := by
  unfold Utils.processVlanItem
  cases step
  case notFound => exact absurd rfl hnf
  all_goals (
    rw [h1]
    dsimp only
    rw [hres]
    cases cfg with
    | obj vf => ?_
    | null => exact Or.inl ⟨"AttributeError: items", [], fun st => rfl⟩
    | bool b => exact Or.inl ⟨"AttributeError: items", [], fun st => rfl⟩
    | int n => exact Or.inl ⟨"AttributeError: items", [], fun st => rfl⟩
    | str s => exact Or.inl ⟨"AttributeError: items", [], fun st => rfl⟩
    | arr xs => exact Or.inl ⟨"AttributeError: items", [], fun st => rfl⟩
    cases hgp : Utils.groupPolicyTranslate pg (Utils.separate_custom_fields vf).1
        (Utils.separate_custom_fields vf).2 with
    | crash m => exact Or.inl ⟨m, [], fun st => by simp [hgp]⟩
    | ok remaining =>
      cases hcr : (Meraki.create_vlan env.backend net (.obj remaining)).1 with
      | crash m =>
        exact Or.inl ⟨m, (Meraki.create_vlan env.backend net (.obj remaining)).2,
          fun st => by simp [hgp, hcr]⟩
      | ok ret =>
        cases ret with
        | failure code msg =>
          exact Or.inr ⟨(Meraki.create_vlan env.backend net (.obj remaining)).2, [], true,
            fun st => by cases st; simp [hgp, hcr]⟩
        | success new_vlan =>
          cases hid : new_vlan.get? "id" with
          | none =>
            exact Or.inl ⟨"KeyError: id", (Meraki.create_vlan env.backend net (.obj remaining)).2,
              fun st => by simp [hgp, hcr, hid]⟩
          | some vlanId =>
            rcases vlanVpnStep_param env (Utils.separate_custom_fields vf).1 new_vlan with
              ⟨m, hv⟩ | hv | ⟨adds, hv⟩
            · exact Or.inl ⟨m, (Meraki.create_vlan env.backend net (.obj remaining)).2,
                fun st => by simp [hgp, hcr, hid, hv st]⟩
            · exact Or.inr ⟨(Meraki.create_vlan env.backend net (.obj remaining)).2, [], true,
                fun st => by cases st; simp [hgp, hcr, hid, hv _]⟩
            · rcases vlanDhcpStep_param env net (Utils.separate_custom_fields vf).1 vlanId with
                ⟨m2, evs2, hd⟩ | ⟨evs2, forced2, hd⟩
              · exact Or.inl ⟨m2,
                  (Meraki.create_vlan env.backend net (.obj remaining)).2 ++ evs2,
                  fun st => by simp [hgp, hcr, hid, hv st, hd _]⟩
              · refine Or.inr ⟨(Meraki.create_vlan env.backend net (.obj remaining)).2 ++ evs2,
                  adds, forced2, fun st => ?_⟩
                cases st
                simp [hgp, hcr, hid, hv _, hd _])

theorem processVlanItem_param (env : Env) (net : String)
    (pg : List (String × Value)) (item : Value) :
    (∃ m evs, ∀ st, Utils.processVlanItem env net pg st item = (.crash m, evs)) ∨
    (∃ (evs : List CallEvent) (adds : List Value) (forced : Bool), ∀ st : Utils.VlanSt,
      Utils.processVlanItem env net pg st item =
        (.ok ⟨cond forced "Partial" st.status, st.vpnSubnets ++ adds⟩, evs)) := by
  cases h1 : Utils.refResolve env item with
  | crash m =>
    exact Or.inl ⟨m, [], fun st => by simp [Utils.processVlanItem, h1]⟩
  | ok step =>
    cases step with
    | notFound =>
      refine Or.inr ⟨[], [], true, fun st => ?_⟩
      cases st
      simp [Utils.processVlanItem, h1]
    | noRef => exact processVlanItem_param_aux env net pg item .noRef _ h1 rfl (by simp)
    | loaded v => exact processVlanItem_param_aux env net pg item (.loaded v) _ h1 rfl (by simp)

theorem vlansLoop_param (env : Env) (net : String) (pg : List (String × Value)) :
    ∀ items : List Value,
    (∃ m evs, ∀ st, Utils.vlansLoop env net pg st items = (.crash m, evs)) ∨
    (∃ (evs : List CallEvent) (adds : List Value) (forced : Bool), ∀ st : Utils.VlanSt,
      Utils.vlansLoop env net pg st items =
        (.ok ⟨cond forced "Partial" st.status, st.vpnSubnets ++ adds⟩, evs)) := by
  intro items
  induction items with
  | nil =>
    refine Or.inr ⟨[], [], false, fun st => ?_⟩
    cases st
    simp [Utils.vlansLoop]
  | cons item rest ih =>
    rcases processVlanItem_param env net pg item with ⟨m, evs, hp⟩ | ⟨evs, adds, f1, hp⟩
    · exact Or.inl ⟨m, evs, fun st => by simp [Utils.vlansLoop, hp st]⟩
    · rcases ih with ⟨m2, evs2, hq⟩ | ⟨evs2, adds2, f2, hq⟩
      · exact Or.inl ⟨m2, evs ++ evs2, fun st => by simp [Utils.vlansLoop, hp st, hq _]⟩
      · refine Or.inr ⟨evs ++ evs2, adds ++ adds2, f1 || f2, fun st => ?_⟩
        cases st with
        | mk s subs =>
          simp only [Utils.vlansLoop, hp _, hq _]
          cases f1 <;> cases f2 <;> simp

theorem vlansLoop_append (env : Env) (net : String) (pg : List (String × Value)) :
    ∀ (l1 l2 : List Value) (st : Utils.VlanSt),
      Utils.vlansLoop env net pg st (l1 ++ l2) =
        (match Utils.vlansLoop env net pg st l1 with
         | (.crash m, e) => (.crash m, e)
         | (.ok st1, e) =>
           ((Utils.vlansLoop env net pg st1 l2).1,
            e ++ (Utils.vlansLoop env net pg st1 l2).2)) := by
  intro l1
  induction l1 with
  | nil =>
    intro l2 st
    simp [Utils.vlansLoop]
  | cons item rest ih =>
    intro l2 st
    simp only [List.cons_append, Utils.vlansLoop, List.append_eq]
    cases hp : (Utils.processVlanItem env net pg st item).1 with
    | crash m => simp
    | ok st2 =>
      dsimp only
      rw [ih l2 st2]
      cases hx : Utils.vlansLoop env net pg st2 rest with
      | mk a b =>
        cases a with
        | crash m => simp
        | ok st3 => simp

theorem vlansLoop_refItem (env : Env) (net : String) (pg : List (String × Value))
    (f : String) (pre post : List Value) (hf : lookupField env.fs f = none) :
    (∃ m evs,
      Utils.vlansLoop env net pg ⟨"Success", []⟩ (pre ++ (.obj [("_ref", .str f)]) :: post) =
        (.crash m, evs) ∧
      Utils.vlansLoop env net pg ⟨"Success", []⟩ (pre ++ post) = (.crash m, evs)) ∨
    (∃ (stL stR : Utils.VlanSt) (evs : List CallEvent),
      Utils.vlansLoop env net pg ⟨"Success", []⟩ (pre ++ (.obj [("_ref", .str f)]) :: post) =
        (.ok stL, evs) ∧
      Utils.vlansLoop env net pg ⟨"Success", []⟩ (pre ++ post) = (.ok stR, evs) ∧
      stL.vpnSubnets = stR.vpnSubnets ∧ stL.status = "Partial") := by
  have hRef : ∀ st : Utils.VlanSt,
      Utils.processVlanItem env net pg st (.obj [("_ref", .str f)]) =
        (.ok { st with status := "Partial" }, []) := by
    intro st
    simp [Utils.processVlanItem, refResolve_notFound env f hf]
  rcases vlansLoop_param env net pg pre with ⟨m, evs, hp⟩ | ⟨evsP, addsP, fP, hp⟩
  · left
    refine ⟨m, evs, ?_, ?_⟩ <;> (rw [vlansLoop_append, hp])
  · rcases vlansLoop_param env net pg post with ⟨m2, evs2, hq⟩ | ⟨evsQ, addsQ, fQ, hq⟩
    · left
      refine ⟨m2, evsP ++ evs2, ?_, ?_⟩
      · rw [vlansLoop_append, hp]
        dsimp only
        simp only [Utils.vlansLoop, hRef]
        rw [hq]
        simp
      · rw [vlansLoop_append, hp]
        dsimp only
        rw [hq]
    · right
      refine ⟨⟨cond fQ "Partial" "Partial", (([] : List Value) ++ addsP) ++ addsQ⟩,
        ⟨cond fQ "Partial" (cond fP "Partial" "Success"), (([] : List Value) ++ addsP) ++ addsQ⟩,
        evsP ++ evsQ, ?_, ?_, rfl, by cases fQ <;> rfl⟩
      · rw [vlansLoop_append, hp]
        dsimp only
        simp only [Utils.vlansLoop, hRef]
        rw [hq]
        simp
      · rw [vlansLoop_append, hp]
        dsimp only
        rw [hq]

theorem vlansVpnBatch_param (env : Env) (net : String) (subs : List Value) :
    (∃ m evs, ∀ s, Utils.vlansVpnBatch env net ⟨s, subs⟩ = (.crash m, evs)) ∨
    (∃ evs, (∀ s, Utils.vlansVpnBatch env net ⟨s, subs⟩ = (.ok "Partial", evs)) ∨
            (∀ s, Utils.vlansVpnBatch env net ⟨s, subs⟩ = (.ok s, evs))) := by
  unfold Utils.vlansVpnBatch
  dsimp only
  cases he : subs.isEmpty
  · simp only [he, Bool.false_eq_true, if_false]
    simp only [Meraki.get_site_to_site_vpn, Meraki.getCall]
    cases hs : env.backend.getNetworkApplianceVpnSiteToSiteVpn net with
    | apiError s0 errors t =>
      exact Or.inr ⟨[⟨"getNetworkApplianceVpnSiteToSiteVpn", [.str net]⟩],
        Or.inl fun s => by simp [sdkToRet]⟩
    | sdkError t =>
      exact Or.inr ⟨[⟨"getNetworkApplianceVpnSiteToSiteVpn", [.str net]⟩],
        Or.inl fun s => by simp [sdkToRet]⟩
    | ok resp =>
      simp only [sdkToRet]
      cases hm : resp.get? "mode" with
      | none =>
        exact Or.inl ⟨"KeyError: mode",
          [⟨"getNetworkApplianceVpnSiteToSiteVpn", [.str net]⟩],
          fun s => by simp [hm]⟩
      | some m =>
        cases hnone : isStrVal m "none"
        · cases hsub : resp.get? "subnets" with
          | none =>
            exact Or.inl ⟨"KeyError: subnets",
              [⟨"getNetworkApplianceVpnSiteToSiteVpn", [.str net]⟩],
              fun s => by simp [hm, hnone, hsub]⟩
          | some sub =>
            cases sub with
            | arr subList =>
              simp only [Meraki.update_site_to_site_vpn, Meraki.spreadCall]
              cases hu : env.backend.updateNetworkApplianceVpnSiteToSiteVpn net
                  (.obj (setField (objFields resp) "subnets"
                    (.arr (subList ++ subs)))) with
              | ok r2 =>
                exact Or.inr ⟨[⟨"getNetworkApplianceVpnSiteToSiteVpn", [.str net]⟩,
                    ⟨"updateNetworkApplianceVpnSiteToSiteVpn", [.str net,
                      .obj (setField (objFields resp) "subnets"
                        (.arr (subList ++ subs)))]⟩],
                  Or.inr fun s => by
                    simp [hm, hnone, hsub, Meraki.update_site_to_site_vpn,
                      Meraki.spreadCall, hu, sdkToRet]⟩
              | apiError s2 e2 t2 =>
                exact Or.inr ⟨[⟨"getNetworkApplianceVpnSiteToSiteVpn", [.str net]⟩,
                    ⟨"updateNetworkApplianceVpnSiteToSiteVpn", [.str net,
                      .obj (setField (objFields resp) "subnets"
                        (.arr (subList ++ subs)))]⟩],
                  Or.inl fun s => by
                    simp [hm, hnone, hsub, Meraki.update_site_to_site_vpn,
                      Meraki.spreadCall, hu, sdkToRet]⟩
              | sdkError t2 =>
                exact Or.inr ⟨[⟨"getNetworkApplianceVpnSiteToSiteVpn", [.str net]⟩,
                    ⟨"updateNetworkApplianceVpnSiteToSiteVpn", [.str net,
                      .obj (setField (objFields resp) "subnets"
                        (.arr (subList ++ subs)))]⟩],
                  Or.inl fun s => by
                    simp [hm, hnone, hsub, Meraki.update_site_to_site_vpn,
                      Meraki.spreadCall, hu, sdkToRet]⟩
            | null =>
              exact Or.inl ⟨"TypeError: concat",
                [⟨"getNetworkApplianceVpnSiteToSiteVpn", [.str net]⟩],
                fun s => by simp [hm, hnone, hsub]⟩
            | bool b =>
              exact Or.inl ⟨"TypeError: concat",
                [⟨"getNetworkApplianceVpnSiteToSiteVpn", [.str net]⟩],
                fun s => by simp [hm, hnone, hsub]⟩
            | int n =>
              exact Or.inl ⟨"TypeError: concat",
                [⟨"getNetworkApplianceVpnSiteToSiteVpn", [.str net]⟩],
                fun s => by simp [hm, hnone, hsub]⟩
            | str s2 =>
              exact Or.inl ⟨"TypeError: concat",
                [⟨"getNetworkApplianceVpnSiteToSiteVpn", [.str net]⟩],
                fun s => by simp [hm, hnone, hsub]⟩
            | obj fs2 =>
              exact Or.inl ⟨"TypeError: concat",
                [⟨"getNetworkApplianceVpnSiteToSiteVpn", [.str net]⟩],
                fun s => by simp [hm, hnone, hsub]⟩
        · exact Or.inr ⟨[⟨"getNetworkApplianceVpnSiteToSiteVpn", [.str net]⟩],
            Or.inl fun s => by simp [hm, hnone]⟩
  · exact Or.inr ⟨[], Or.inr fun s => by simp [he]⟩

theorem finishWithGet_getCall (status : String) (evs : List CallEvent)
    (op net : String) (r : SdkRes Value) :
    ∃ out, Utils.finishWithGet status evs (Meraki.getCall op net r) =
      (.ok (status, out), evs ++ [⟨op, [.str net]⟩]) := by
  unfold Utils.finishWithGet Meraki.getCall
  cases r with
  | ok v => exact ⟨v, rfl⟩
  | apiError s es t => exact ⟨.str t, rfl⟩
  | sdkError t => exact ⟨.str t, rfl⟩

/-- C7: a `_ref` naming a missing fragment never yields `Success` and
never suppresses the siblings.  (i) A `vlans` list containing a bad-ref
item ends with section status ≠ `"Success"`; (ii) the backend-call trace
is the same as for the list with the bad item removed, so every sibling
VLAN is still processed; (iii) a section-level bad ref in
`traffic_shaping` returns `Failure` with no backend call; (iv) a nested
bad ref under `_uplink_bandwidth` leaves the section `Partial`. -/
theorem bad_ref_never_success_siblings_processed (env : Env) (net f : String)
    (hf : lookupField env.fs f = none) :
    (∀ (pre post : List Value) (st : String) (out : Value) (evs : List CallEvent),
      Utils.vlans_config env net (.arr (pre ++ (.obj [("_ref", .str f)]) :: post)) =
        (.ok (st, out), evs) → st ≠ "Success") ∧
    (∀ pre post : List Value,
      (Utils.vlans_config env net (.arr (pre ++ (.obj [("_ref", .str f)]) :: post))).2 =
        (Utils.vlans_config env net (.arr (pre ++ post))).2) ∧
    Utils.traffic_shaping_config env net (.obj [("_ref", .str f)]) =
      (.ok ("Failure", .str "Ref File not found... skipping."), []) ∧
    (∀ (st : String) (out : Value) (evs : List CallEvent),
      Utils.traffic_shaping_config env net
          (.obj [("_uplink_bandwidth", .obj [("_ref", .str f)])]) =
        (.ok (st, out), evs) → st = "Partial") := by
  refine ⟨?_, ?_, ?_, ?_⟩
  · intro pre post st out evs h
    unfold Utils.vlans_config at h
    simp only [Meraki.get_network_group_policies] at h
    cases hgp : env.backend.getNetworkGroupPolicies net with
    | apiError s0 es t0 =>
      simp only [hgp, sdkToRet] at h
      cases h
      decide
    | sdkError t0 =>
      simp only [hgp, sdkToRet] at h
      cases h
      decide
    | ok pols =>
      simp only [hgp, sdkToRet] at h
      dsimp only [pyIter] at h
      rcases vlansLoop_refItem env net
          (pols.foldl (fun acc p => setField acc p.name p.groupPolicyId) [])
          f pre post hf with
        ⟨m, evsl, hL, _⟩ | ⟨stL, stR, evsl, hL, _, hsub, hstat⟩
      · rw [hL] at h
        dsimp only at h
        simp at h
      · rw [hL] at h
        dsimp only at h
        obtain ⟨sL, subsL⟩ := stL
        dsimp only at hstat
        subst hstat
        rcases vlansVpnBatch_param env net subsL with
          ⟨m2, evsb, hb⟩ | ⟨evsb, hb | hb⟩
        · rw [hb "Partial"] at h
          dsimp only at h
          simp at h
        · rw [hb "Partial"] at h
          dsimp only at h
          simp only [Meraki.get_vlans] at h
          obtain ⟨outv, hfin⟩ := finishWithGet_getCall "Partial"
            ([⟨"getNetworkGroupPolicies", [.str net]⟩] ++ evsl ++ evsb)
            "getNetworkApplianceVlans" net (env.backend.getNetworkApplianceVlans net)
          rw [hfin] at h
          cases h
          decide
        · rw [hb "Partial"] at h
          dsimp only at h
          simp only [Meraki.get_vlans] at h
          obtain ⟨outv, hfin⟩ := finishWithGet_getCall "Partial"
            ([⟨"getNetworkGroupPolicies", [.str net]⟩] ++ evsl ++ evsb)
            "getNetworkApplianceVlans" net (env.backend.getNetworkApplianceVlans net)
          rw [hfin] at h
          cases h
          decide
  · intro pre post
    unfold Utils.vlans_config
    simp only [Meraki.get_network_group_policies]
    cases hgp : env.backend.getNetworkGroupPolicies net with
    | apiError s0 es t0 => simp [sdkToRet]
    | sdkError t0 => simp [sdkToRet]
    | ok pols =>
      simp only [sdkToRet]
      dsimp only [pyIter]
      rcases vlansLoop_refItem env net
          (pols.foldl (fun acc p => setField acc p.name p.groupPolicyId) [])
          f pre post hf with
        ⟨m, evsl, hL, hR⟩ | ⟨stL, stR, evsl, hL, hR, hsub, hstat⟩
      · rw [hL, hR]
      · rw [hL, hR]
        dsimp only
        obtain ⟨sL, subsL⟩ := stL
        obtain ⟨sR, subsR⟩ := stR
        dsimp only at hsub hstat
        subst hsub
        subst hstat
        rcases vlansVpnBatch_param env net subsL with
          ⟨m2, evsb, hb⟩ | ⟨evsb, hb | hb⟩
        · rw [hb "Partial", hb sR]
        · rw [hb "Partial", hb sR]
        · rw [hb "Partial", hb sR]
          dsimp only
          simp only [Meraki.get_vlans, Meraki.getCall]
          cases hv : env.backend.getNetworkApplianceVlans net <;>
            simp [sdkToRet, Utils.finishWithGet]
  · unfold Utils.traffic_shaping_config
    rw [refResolve_notFound env f hf]
  · intro st out evs h
    unfold Utils.traffic_shaping_config at h
    rw [show Utils.refResolve env (.obj [("_uplink_bandwidth", .obj [("_ref", .str f)])]) =
        .ok .noRef from rfl] at h
    dsimp only [Utils.resolvedConfig, Utils.separate_custom_fields, startsWithChars,
      lookupField] at h
    rw [if_pos rfl] at h
    dsimp only at h
    rw [refResolve_notFound env f hf] at h
    dsimp only [Meraki.update_traffic_shaping_uplink_bandwidth_settings,
      Meraki.spreadCall, Utils.trafficFinish, Meraki.get_uplink_bandwidth,
      Meraki.getCall] at h
    cases hg : env.backend.getNetworkApplianceTrafficShapingUplinkBandwidth net <;>
      simp only [hg, sdkToRet] at h <;> cases h <;> rfl

/-- Witness for C7 at a concrete run: the fixture filesystem lacks
`nope.json`, so the theorem's hypothesis holds by evaluation, and its
conclusions apply to the fixture environment. -/
theorem bad_ref_never_success_siblings_processed_witness :
    lookupField testEnv.fs "nope.json" = none ∧
    Utils.traffic_shaping_config testEnv "N_1" (.obj [("_ref", .str "nope.json")]) =
      (.ok ("Failure", .str "Ref File not found... skipping."), []) ∧
    (Utils.vlans_config testEnv "N_1"
        (.arr ([goodVlan 10] ++ (.obj [("_ref", .str "nope.json")]) :: [goodVlan 20]))).2 =
      (Utils.vlans_config testEnv "N_1" (.arr ([goodVlan 10] ++ [goodVlan 20]))).2 :=
  ⟨rfl,
   (bad_ref_never_success_siblings_processed testEnv "N_1" "nope.json" rfl).2.2.1,
   (bad_ref_never_success_siblings_processed testEnv "N_1" "nope.json" rfl).2.1
     [goodVlan 10] [goodVlan 20]⟩
